import Mathlib

/-!
Verification of the `universal-mcp/google-calendar` adapter
(`src/universal_mcp_google_calendar/app.py`) against its natural-language
specification.

The Python code is shallowly embedded:

* Python/JSON values are the inductive `PyVal`; Python `None` passed for an
  optional keyword argument is `Option.none` at the argument position, while
  a JSON `null` inside a document is `PyVal.null`.
* Exceptions are the inductive `PyErr`; fallible code runs in `Except PyErr`.
* The HTTP layer (`self._get`/`_post`/... , `response.raise_for_status()`,
  `response.json()`) lives outside this repository, in the `universal_mcp`
  application base class and its `httpx` client.  It is modelled from the
  spec ("non-2xx HTTP responses, surfaced by the HTTP client/handler to the
  caller") and from the documented `httpx` semantics: `raise_for_status`
  raises unless the status is 2xx, and `response.json()` raises a JSON
  decode error when the body is not valid JSON (in particular when it is
  empty, as in a `204 No Content` reply).
* Each adapter method becomes a function from the app configuration, its
  arguments and the (single) HTTP response to the list of HTTP requests it
  issued together with its outcome, `List HttpRequest × Except PyErr PyVal`.
  A method that raises before calling the client returns `([], .error e)`.
* `datetime.fromisoformat` (CPython 3.7-3.10 algorithm) and
  `datetime.strftime "%Y-%m-%d %I:%M %p"` are modelled by `isoParse` and
  `strftimeOut`; `datetime.now/utcnow` are ambient inputs, passed as
  explicit parameters (`today`, `nowIso`).
-/

namespace GCal

/-- A Python/JSON value as it flows through the adapter: the JSON documents
exchanged with the Google Calendar API and the keyword-argument values. -/
inductive PyVal where
  | null : PyVal
  | bool : Bool → PyVal
  | int : Int → PyVal
  | str : String → PyVal
  | arr : List PyVal → PyVal
  | obj : List (String × PyVal) → PyVal

/-- The Python exceptions the adapter can raise or propagate. -/
inductive PyErr where
  | valueError : String → PyErr
  | httpStatusError : Nat → PyErr
  | jsonDecodeError : PyErr
  | typeError : PyErr
  | attributeError : PyErr
  | indexError : PyErr
deriving DecidableEq

/-- Python truthiness (`bool(v)`) for the values of `PyVal`. -/
def pyTruthy : PyVal → Bool
  | .null => false
  | .bool b => b
  | .int n => n != 0
  | .str s => !s.isEmpty
  | .arr xs => !xs.isEmpty
  | .obj fs => !fs.isEmpty

mutual

/-- Python `repr` for the values of `PyVal` (string escaping simplified:
a string is rendered between plain single quotes). -/
def pyRepr : PyVal → String
  | .null => "None"
  | .bool b => if b then "True" else "False"
  | .int n => toString n
  | .str s => "'" ++ s ++ "'"
  | .arr xs => "[" ++ pyReprList xs ++ "]"
  | .obj fs => "\x7b" ++ pyReprFields fs ++ "\x7d"

/-- Comma-separated `repr`s of a list's elements. -/
def pyReprList : List PyVal → String
  | [] => ""
  | [x] => pyRepr x
  | x :: xs => pyRepr x ++ ", " ++ pyReprList xs

/-- Comma-separated `repr`s of a dict's entries. -/
def pyReprFields : List (String × PyVal) → String
  | [] => ""
  | [(k, v)] => "'" ++ k ++ "': " ++ pyRepr v
  | (k, v) :: fs => "'" ++ k ++ "': " ++ pyRepr v ++ ", " ++ pyReprFields fs

end

/-- Python `str(v)`: the identity on strings, `repr` otherwise (which agrees
with `str` on the remaining `PyVal` constructors). -/
def pyStr : PyVal → String
  | .str s => s
  | v => pyRepr v

/-- Python `d.get(k, dflt)` on a dict embedded as an association list with
distinct keys (insertion order preserved). -/
def dictGetD (fs : List (String × PyVal)) (k : String) (dflt : PyVal) : PyVal :=
  match fs.find? (fun p => p.1 == k) with
  | some p => p.2
  | none => dflt

/-- Python `k in d` for a dict. -/
def hasKey (fs : List (String × PyVal)) (k : String) : Bool :=
  (fs.find? (fun p => p.1 == k)).isSome

/-- Python attribute access `v.get`: only dicts have it; on any other value
the attribute lookup raises `AttributeError`. -/
def asDict : PyVal → Except PyErr (List (String × PyVal))
  | .obj fs => .ok fs
  | _ => .error .attributeError

/-- Python iteration `for x in v` as the adapter uses it on JSON arrays.
(Iteration over strings or dicts is approximated by a `TypeError`; the
adapter's loops immediately call `.get` on the items, so a non-array value
raises either way.) -/
def asList : PyVal → Except PyErr (List PyVal)
  | .arr xs => .ok xs
  | _ => .error .typeError

/-- The `None`-filtering comprehension the generated operations apply to
their query-parameter and body dictionaries:
`{k: v for k, v in pairs if v is not None}`. -/
def pyFilterNone (l : List (String × Option PyVal)) : List (String × PyVal) :=
  l.filterMap (fun p => p.2.map (fun v => (p.1, v)))

/-- Python `lst[i]`: `IndexError` when out of bounds. -/
def pyIndex {α : Type} (l : List α) (i : Nat) : Except PyErr α :=
  match l.get? i with
  | some x => .ok x
  | none => .error .indexError

/-- Python `s.split(sep)` for a single-character separator, on the
character list: empty fields are kept, and the result is never empty. -/
def splitCh (sep : Char) : List Char → List (List Char)
  | [] => [[]]
  | c :: cs =>
    if c = sep then [] :: splitCh sep cs
    else
      match splitCh sep cs with
      | [] => [[c]]
      | g :: gs => (c :: g) :: gs

/-- Python `s.split(sep)` on strings. -/
def pySplit (sep : Char) (s : String) : List String :=
  (splitCh sep s.data).map String.mk

/-- Python `"T" in s` (a one-character needle is a character membership). -/
def containsTChar (s : String) : Bool := s.data.contains 'T'

/-- Python `s.replace("Z", "+00:00")` on the character list: every `Z` is
replaced, not only a trailing one. -/
def pyReplaceZ : List Char → List Char
  | [] => []
  | c :: cs =>
    if c = 'Z' then '+' :: '0' :: '0' :: ':' :: '0' :: '0' :: pyReplaceZ cs
    else c :: pyReplaceZ cs

/-- Python `s.endswith("Z")`: the last character is `Z`. -/
def endsWithZ (s : String) : Bool :=
  match s.data.getLast? with
  | some c => c = 'Z'
  | none => false

/-- The reassignment `_format_datetime` performs before parsing:
`if dt_string.endswith("Z"): dt_string = dt_string.replace("Z", "+00:00")`. -/
def zNormalize (s : String) : String :=
  if endsWithZ s then String.mk (pyReplaceZ s.data) else s

/-- The decimal digit character for `d ≤ 9` (the only values the renderers
below apply it to). -/
def digitChar : Nat → Char
  | 0 => '0'
  | 1 => '1'
  | 2 => '2'
  | 3 => '3'
  | 4 => '4'
  | 5 => '5'
  | 6 => '6'
  | 7 => '7'
  | 8 => '8'
  | 9 => '9'
  | _ => '*'

/-- Zero-padded two-digit rendering (`%02d`, `%I`, `%M`) for `n ≤ 99`. -/
def twoDigL (n : Nat) : List Char := [digitChar (n / 10), digitChar (n % 10)]

/-- Zero-padded four-digit rendering (`%Y`, `%04d`) for `n ≤ 9999`. -/
def fourDigL (n : Nat) : List Char :=
  [digitChar (n / 1000), digitChar (n / 100 % 10), digitChar (n / 10 % 10), digitChar (n % 10)]

/-- The part of a parsed `datetime` that `strftime "%Y-%m-%d %I:%M %p"`
renders (seconds, fraction and timezone offset are validated by the parser
but not displayed). -/
structure PyDateTime where
  year : Nat
  month : Nat
  day : Nat
  hour : Nat
  minute : Nat
deriving DecidableEq

/-- The numeric value of two digit characters. -/
def twoDigVal (a b : Char) : Nat := (a.toNat - 48) * 10 + (b.toNat - 48)

/-- CPython's `_parse_hh_mm_ss_ff`: `HH[:MM[:SS[.fff or .ffffff]]]`, each
component exactly two digits, the fraction exactly three or six digits. -/
def parseHMSFF : List Char → Option (Nat × Nat × Nat)
  | h1 :: h2 :: rest =>
    if h1.isDigit && h2.isDigit then
      let hh := twoDigVal h1 h2
      match rest with
      | [] => some (hh, 0, 0)
      | ':' :: m1 :: m2 :: rest2 =>
        if m1.isDigit && m2.isDigit then
          let mm := twoDigVal m1 m2
          match rest2 with
          | [] => some (hh, mm, 0)
          | ':' :: s1 :: s2 :: rest3 =>
            if s1.isDigit && s2.isDigit then
              let ss := twoDigVal s1 s2
              match rest3 with
              | [] => some (hh, mm, ss)
              | '.' :: fr =>
                if (fr.length = 3 || fr.length = 6) && fr.all Char.isDigit then
                  some (hh, mm, ss)
                else none
              | _ => none
            else none
          | _ => none
        else none
      | _ => none
    else none
  | _ => none

/-- CPython's timezone split in `_parse_isoformat_time`: the time string is
cut at the first `-`, else at the first `+`; the rest (sign excluded) is the
offset. -/
def splitAtSign (l : List Char) : List Char × Option (List Char) :=
  match l.findIdx? (· = '-') with
  | some i => (l.take i, some (l.drop (i + 1)))
  | none =>
    match l.findIdx? (· = '+') with
    | some i => (l.take i, some (l.drop (i + 1)))
    | none => (l, none)

/-- CPython's `_parse_isoformat_time` followed by the `datetime`/`timezone`
range validation: hour/minute/second bounds, offset length 5, 8 or 15 and
strictly less than 24 hours. Only the hour and minute are kept. -/
def parseTimeTz (l : List Char) : Option (Nat × Nat) :=
  match splitAtSign l with
  | (timestr, tzpart) =>
    match parseHMSFF timestr with
    | none => none
    | some (h, mi, se) =>
      if h ≤ 23 && mi ≤ 59 && se ≤ 59 then
        match tzpart with
        | none => some (h, mi)
        | some tz =>
          if tz.length = 5 || tz.length = 8 || tz.length = 15 then
            match parseHMSFF tz with
            | some (th, tm, ts) =>
              if th * 3600 + tm * 60 + ts < 86400 then some (h, mi) else none
            | none => none
          else none
      else none

/-- A proleptic-Gregorian leap year (as `calendar.isleap`). -/
def isLeap (y : Nat) : Bool := (y % 4 = 0 && y % 100 ≠ 0) || y % 400 = 0

/-- Days in a month of the proleptic Gregorian calendar. -/
def daysInMonth (y : Nat) (m : Nat) : Nat :=
  if m = 2 then (if isLeap y then 29 else 28)
  else if m = 4 || m = 6 || m = 9 || m = 11 then 30
  else 31

/-- CPython 3.7-3.10 `datetime.fromisoformat` on the character list:
a ten-character `YYYY-MM-DD` date, then optionally one arbitrary separator
character and a time with optional offset.  Range validation mirrors the
`date`/`datetime` constructors (year at least 1, month 1-12, day within the
month). -/
def parseISO : List Char → Option PyDateTime
  | y1 :: y2 :: y3 :: y4 :: '-' :: mo1 :: mo2 :: '-' :: dd1 :: dd2 :: rest =>
    if y1.isDigit && y2.isDigit && y3.isDigit && y4.isDigit
        && mo1.isDigit && mo2.isDigit && dd1.isDigit && dd2.isDigit then
      let y := twoDigVal y1 y2 * 100 + twoDigVal y3 y4
      let mo := twoDigVal mo1 mo2
      let dy := twoDigVal dd1 dd2
      if 1 ≤ y && 1 ≤ mo && mo ≤ 12 && 1 ≤ dy && dy ≤ daysInMonth y mo then
        match rest with
        | [] => some ⟨y, mo, dy, 0, 0⟩
        | _sep :: tl =>
          match parseTimeTz tl with
          | some (h, mi) => some ⟨y, mo, dy, h, mi⟩
          | none => none
      else none
    else none
  | _ => none

/-- `datetime.fromisoformat` on strings: `some` a parsed datetime, `none`
for the `ValueError` the caller catches. -/
def isoParse (s : String) : Option PyDateTime := parseISO s.data

/-- `dt.strftime("%Y-%m-%d %I:%M %p")`: zero-padded date, twelve-hour
clock (0 rendered as 12) and AM/PM marker. -/
def strftimeOut (dt : PyDateTime) : String :=
  String.mk (fourDigL dt.year ++ ('-' :: twoDigL dt.month) ++ ('-' :: twoDigL dt.day)
    ++ (' ' :: twoDigL (if dt.hour % 12 = 0 then 12 else dt.hour % 12))
    ++ (':' :: twoDigL dt.minute)
    ++ (' ' :: if dt.hour < 12 then ['A', 'M'] else ['P', 'M']))

/-- `GoogleCalendarApp._format_datetime` on a string argument: empty or
`"Unknown"` gives `"Unknown"`; a string without `T` is an all-day date; a
string with `T` is normalized (`zNormalize`) and parsed, the parsed datetime
is rendered with `strftimeOut`, and on a parse failure the *normalized*
string is returned (the source reassigns `dt_string` before parsing). -/
def format_datetime (dt_string : String) : String :=
  if dt_string = "" || dt_string = "Unknown" then "Unknown"
  else if containsTChar dt_string then
    let s2 := zNormalize dt_string
    match isoParse s2 with
    | some dt => strftimeOut dt
    | none => s2
  else dt_string ++ " (All day)"

/-- `_format_datetime` applied to an arbitrary runtime value, as the
formatting methods do on JSON fields: a falsy value passes the
`not dt_string` test and gives `"Unknown"`, a truthy non-string raises
`TypeError` at `"T" in dt_string`. -/
def format_datetime_dyn : PyVal → Except PyErr String
  | .str s => .ok (format_datetime s)
  | v => if pyTruthy v then .error .typeError else .ok "Unknown"

/-- An HTTP verb of the client calls `_get`/`_post`/`_put`/`_patch`/`_delete`. -/
inductive HttpVerb where
  | get | post | put | patch | delete
deriving DecidableEq

/-- One HTTP request as the adapter hands it to the client: the verb, the
URL (path parameters already interpolated), the query-parameter dictionary,
and the body dictionary (`none` mirrors `data=None` or an absent `data`). -/
structure HttpRequest where
  verb : HttpVerb
  url : String
  queryParams : List (String × PyVal)
  body : Option (List (String × PyVal))

/-- Modelled from the spec: an HTTP response as the external client hands it
back — a status code and the JSON reading of the body (`none` when the body
is not valid JSON, e.g. the empty body of a `204 No Content` reply). -/
structure HttpResponse where
  status : Nat
  jsonBody : Option PyVal

/-- Modelled from the spec: `response.raise_for_status()` — "non-2xx HTTP
responses, surfaced by the HTTP client/handler to the caller". -/
def raise_for_status (r : HttpResponse) : Except PyErr Unit :=
  if 200 ≤ r.status ∧ r.status ≤ 299 then .ok () else .error (.httpStatusError r.status)

/-- Modelled from the spec: `response.json()` — parses the body, raising a
JSON decode error when it is not valid JSON. -/
def responseJson (r : HttpResponse) : Except PyErr PyVal :=
  match r.jsonBody with
  | some v => .ok v
  | none => .error .jsonDecodeError

/-- The shared tail of every generated operation:
`response = self._<verb>(url, ...); response.raise_for_status();
return response.json()` — one request issued, then the 2xx check and the
JSON parse of the body. -/
def runHttpJson (req : HttpRequest) (resp : HttpResponse) :
    List HttpRequest × Except PyErr PyVal :=
  (([req] : List HttpRequest), do
    let _ ← raise_for_status resp
    responseJson resp)

/-- The instance state `GoogleCalendarApp.__init__` sets: the two base URLs.
No method of the class assigns any instance attribute after construction. -/
structure AppCfg where
  base_api_url : String
  base_url : String
deriving DecidableEq

/-- `GoogleCalendarApp.__init__`. -/
def googleCalendarApp : AppCfg :=
  { base_api_url := "https://www.googleapis.com/calendar/v3/calendars/primary"
    base_url := "https://www.googleapis.com/calendar/v3" }

/-! ### The auto-generated operations

Each is a direct transcription of the Python method: `None`-checks on the
required path parameters (raising `ValueError` before any request), URL
interpolation, the `None`-filtered query/body dictionaries, one client call
and the shared `raise_for_status`/`json()` tail.  Required path parameters
are the documented strings, optional arguments arbitrary values. -/

/-- `get_access_control_rule`. -/
def get_access_control_rule (cfg : AppCfg) (calendarId ruleId : Option String)
    (alt fields key oauth_token prettyPrint quotaUser userIp : Option PyVal)
    (resp : HttpResponse) : List HttpRequest × Except PyErr PyVal :=
  match calendarId with
  | none => ([], .error (.valueError "Missing required parameter 'calendarId'"))
  | some cid =>
    match ruleId with
    | none => ([], .error (.valueError "Missing required parameter 'ruleId'"))
    | some rid =>
      runHttpJson
        { verb := .get
          url := cfg.base_url ++ "/calendars/" ++ cid ++ "/acl/" ++ rid
          queryParams := pyFilterNone [("alt", alt), ("fields", fields), ("key", key),
            ("oauth_token", oauth_token), ("prettyPrint", prettyPrint),
            ("quotaUser", quotaUser), ("userIp", userIp)]
          body := none } resp

/-- `update_access_control_rule`. -/
def update_access_control_rule (cfg : AppCfg) (calendarId ruleId : Option String)
    (sendNotifications alt fields key oauth_token prettyPrint quotaUser userIp
      etag id kind role scope : Option PyVal)
    (resp : HttpResponse) : List HttpRequest × Except PyErr PyVal :=
  match calendarId with
  | none => ([], .error (.valueError "Missing required parameter 'calendarId'"))
  | some cid =>
    match ruleId with
    | none => ([], .error (.valueError "Missing required parameter 'ruleId'"))
    | some rid =>
      runHttpJson
        { verb := .put
          url := cfg.base_url ++ "/calendars/" ++ cid ++ "/acl/" ++ rid
          queryParams := pyFilterNone [("sendNotifications", sendNotifications),
            ("alt", alt), ("fields", fields), ("key", key),
            ("oauth_token", oauth_token), ("prettyPrint", prettyPrint),
            ("quotaUser", quotaUser), ("userIp", userIp)]
          body := some (pyFilterNone [("etag", etag), ("id", id), ("kind", kind),
            ("role", role), ("scope", scope)]) } resp

/-- `delete_access_control_rule`. -/
def delete_access_control_rule (cfg : AppCfg) (calendarId ruleId : Option String)
    (alt fields key oauth_token prettyPrint quotaUser userIp : Option PyVal)
    (resp : HttpResponse) : List HttpRequest × Except PyErr PyVal :=
  match calendarId with
  | none => ([], .error (.valueError "Missing required parameter 'calendarId'"))
  | some cid =>
    match ruleId with
    | none => ([], .error (.valueError "Missing required parameter 'ruleId'"))
    | some rid =>
      runHttpJson
        { verb := .delete
          url := cfg.base_url ++ "/calendars/" ++ cid ++ "/acl/" ++ rid
          queryParams := pyFilterNone [("alt", alt), ("fields", fields), ("key", key),
            ("oauth_token", oauth_token), ("prettyPrint", prettyPrint),
            ("quotaUser", quotaUser), ("userIp", userIp)]
          body := none } resp

/-- `patch_access_control_rule`. -/
def patch_access_control_rule (cfg : AppCfg) (calendarId ruleId : Option String)
    (sendNotifications alt fields key oauth_token prettyPrint quotaUser userIp
      etag id kind role scope : Option PyVal)
    (resp : HttpResponse) : List HttpRequest × Except PyErr PyVal :=
  match calendarId with
  | none => ([], .error (.valueError "Missing required parameter 'calendarId'"))
  | some cid =>
    match ruleId with
    | none => ([], .error (.valueError "Missing required parameter 'ruleId'"))
    | some rid =>
      runHttpJson
        { verb := .patch
          url := cfg.base_url ++ "/calendars/" ++ cid ++ "/acl/" ++ rid
          queryParams := pyFilterNone [("sendNotifications", sendNotifications),
            ("alt", alt), ("fields", fields), ("key", key),
            ("oauth_token", oauth_token), ("prettyPrint", prettyPrint),
            ("quotaUser", quotaUser), ("userIp", userIp)]
          body := some (pyFilterNone [("etag", etag), ("id", id), ("kind", kind),
            ("role", role), ("scope", scope)]) } resp

/-- `return_access_control_rules`. -/
def return_access_control_rules (cfg : AppCfg) (calendarId : Option String)
    (maxResults pageToken showDeleted syncToken alt fields key oauth_token
      prettyPrint quotaUser userIp : Option PyVal)
    (resp : HttpResponse) : List HttpRequest × Except PyErr PyVal :=
  match calendarId with
  | none => ([], .error (.valueError "Missing required parameter 'calendarId'"))
  | some cid =>
    runHttpJson
      { verb := .get
        url := cfg.base_url ++ "/calendars/" ++ cid ++ "/acl"
        queryParams := pyFilterNone [("maxResults", maxResults), ("pageToken", pageToken),
          ("showDeleted", showDeleted), ("syncToken", syncToken), ("alt", alt),
          ("fields", fields), ("key", key), ("oauth_token", oauth_token),
          ("prettyPrint", prettyPrint), ("quotaUser", quotaUser), ("userIp", userIp)]
        body := none } resp

/-- `insert_access_control_rule`. -/
def insert_access_control_rule (cfg : AppCfg) (calendarId : Option String)
    (sendNotifications alt fields key oauth_token prettyPrint quotaUser userIp
      etag id kind role scope : Option PyVal)
    (resp : HttpResponse) : List HttpRequest × Except PyErr PyVal :=
  match calendarId with
  | none => ([], .error (.valueError "Missing required parameter 'calendarId'"))
  | some cid =>
    runHttpJson
      { verb := .post
        url := cfg.base_url ++ "/calendars/" ++ cid ++ "/acl"
        queryParams := pyFilterNone [("sendNotifications", sendNotifications),
          ("alt", alt), ("fields", fields), ("key", key),
          ("oauth_token", oauth_token), ("prettyPrint", prettyPrint),
          ("quotaUser", quotaUser), ("userIp", userIp)]
        body := some (pyFilterNone [("etag", etag), ("id", id), ("kind", kind),
          ("role", role), ("scope", scope)]) } resp

/-- `watch_access_control_rules`. -/
def watch_access_control_rules (cfg : AppCfg) (calendarId : Option String)
    (maxResults pageToken showDeleted syncToken alt fields key oauth_token
      prettyPrint quotaUser userIp address expiration id kind params payload
      resourceId resourceUri token type : Option PyVal)
    (resp : HttpResponse) : List HttpRequest × Except PyErr PyVal :=
  match calendarId with
  | none => ([], .error (.valueError "Missing required parameter 'calendarId'"))
  | some cid =>
    runHttpJson
      { verb := .post
        url := cfg.base_url ++ "/calendars/" ++ cid ++ "/acl/watch"
        queryParams := pyFilterNone [("maxResults", maxResults), ("pageToken", pageToken),
          ("showDeleted", showDeleted), ("syncToken", syncToken), ("alt", alt),
          ("fields", fields), ("key", key), ("oauth_token", oauth_token),
          ("prettyPrint", prettyPrint), ("quotaUser", quotaUser), ("userIp", userIp)]
        body := some (pyFilterNone [("address", address), ("expiration", expiration),
          ("id", id), ("kind", kind), ("params", params), ("payload", payload),
          ("resourceId", resourceId), ("resourceUri", resourceUri),
          ("token", token), ("type", type)]) } resp

/-- `delete_event`. -/
def delete_event (cfg : AppCfg) (calendarId eventId : Option String)
    (sendNotifications sendUpdates alt fields key oauth_token prettyPrint
      quotaUser userIp : Option PyVal)
    (resp : HttpResponse) : List HttpRequest × Except PyErr PyVal :=
  match calendarId with
  | none => ([], .error (.valueError "Missing required parameter 'calendarId'"))
  | some cid =>
    match eventId with
    | none => ([], .error (.valueError "Missing required parameter 'eventId'"))
    | some eid =>
      runHttpJson
        { verb := .delete
          url := cfg.base_url ++ "/calendars/" ++ cid ++ "/events/" ++ eid
          queryParams := pyFilterNone [("sendNotifications", sendNotifications),
            ("sendUpdates", sendUpdates), ("alt", alt), ("fields", fields),
            ("key", key), ("oauth_token", oauth_token), ("prettyPrint", prettyPrint),
            ("quotaUser", quotaUser), ("userIp", userIp)]
          body := none } resp

/-- `insert_event` (despite its name: a `GET` of the recurring event's
instances, with no request body). -/
def insert_event (cfg : AppCfg) (calendarId eventId : Option String)
    (alwaysIncludeEmail maxAttendees maxResults originalStart pageToken
      showDeleted timeMax timeMin timeZone alt fields key oauth_token
      prettyPrint quotaUser userIp : Option PyVal)
    (resp : HttpResponse) : List HttpRequest × Except PyErr PyVal :=
  match calendarId with
  | none => ([], .error (.valueError "Missing required parameter 'calendarId'"))
  | some cid =>
    match eventId with
    | none => ([], .error (.valueError "Missing required parameter 'eventId'"))
    | some eid =>
      runHttpJson
        { verb := .get
          url := cfg.base_url ++ "/calendars/" ++ cid ++ "/events/" ++ eid ++ "/instances"
          queryParams := pyFilterNone [("alwaysIncludeEmail", alwaysIncludeEmail),
            ("maxAttendees", maxAttendees), ("maxResults", maxResults),
            ("originalStart", originalStart), ("pageToken", pageToken),
            ("showDeleted", showDeleted), ("timeMax", timeMax), ("timeMin", timeMin),
            ("timeZone", timeZone), ("alt", alt), ("fields", fields), ("key", key),
            ("oauth_token", oauth_token), ("prettyPrint", prettyPrint),
            ("quotaUser", quotaUser), ("userIp", userIp)]
          body := none } resp

/-- `move_event` (`data={}`: an empty body dictionary). -/
def move_event (cfg : AppCfg) (calendarId eventId : Option String)
    (destination sendNotifications sendUpdates alt fields key oauth_token
      prettyPrint quotaUser userIp : Option PyVal)
    (resp : HttpResponse) : List HttpRequest × Except PyErr PyVal :=
  match calendarId with
  | none => ([], .error (.valueError "Missing required parameter 'calendarId'"))
  | some cid =>
    match eventId with
    | none => ([], .error (.valueError "Missing required parameter 'eventId'"))
    | some eid =>
      runHttpJson
        { verb := .post
          url := cfg.base_url ++ "/calendars/" ++ cid ++ "/events/" ++ eid ++ "/move"
          queryParams := pyFilterNone [("destination", destination),
            ("sendNotifications", sendNotifications), ("sendUpdates", sendUpdates),
            ("alt", alt), ("fields", fields), ("key", key),
            ("oauth_token", oauth_token), ("prettyPrint", prettyPrint),
            ("quotaUser", quotaUser), ("userIp", userIp)]
          body := some [] } resp

/-- `return_events_from_calendar`. -/
def return_events_from_calendar (cfg : AppCfg) (calendarId : Option String)
    (alwaysIncludeEmail eventTypes iCalUID maxAttendees maxResults orderBy
      pageToken privateExtendedProperty q sharedExtendedProperty showDeleted
      showHiddenInvitations singleEvents syncToken timeMax timeMin timeZone
      updatedMin alt fields key oauth_token prettyPrint quotaUser userIp : Option PyVal)
    (resp : HttpResponse) : List HttpRequest × Except PyErr PyVal :=
  match calendarId with
  | none => ([], .error (.valueError "Missing required parameter 'calendarId'"))
  | some cid =>
    runHttpJson
      { verb := .get
        url := cfg.base_url ++ "/calendars/" ++ cid ++ "/events"
        queryParams := pyFilterNone [("alwaysIncludeEmail", alwaysIncludeEmail),
          ("eventTypes", eventTypes), ("iCalUID", iCalUID),
          ("maxAttendees", maxAttendees), ("maxResults", maxResults),
          ("orderBy", orderBy), ("pageToken", pageToken),
          ("privateExtendedProperty", privateExtendedProperty), ("q", q),
          ("sharedExtendedProperty", sharedExtendedProperty),
          ("showDeleted", showDeleted), ("showHiddenInvitations", showHiddenInvitations),
          ("singleEvents", singleEvents), ("syncToken", syncToken),
          ("timeMax", timeMax), ("timeMin", timeMin), ("timeZone", timeZone),
          ("updatedMin", updatedMin), ("alt", alt), ("fields", fields), ("key", key),
          ("oauth_token", oauth_token), ("prettyPrint", prettyPrint),
          ("quotaUser", quotaUser), ("userIp", userIp)]
        body := none } resp

/-- `watch_events`. -/
def watch_events (cfg : AppCfg) (calendarId : Option String)
    (alwaysIncludeEmail eventTypes iCalUID maxAttendees maxResults orderBy
      pageToken privateExtendedProperty q sharedExtendedProperty showDeleted
      showHiddenInvitations singleEvents syncToken timeMax timeMin timeZone
      updatedMin alt fields key oauth_token prettyPrint quotaUser userIp
      address expiration id kind params payload resourceId resourceUri
      token type : Option PyVal)
    (resp : HttpResponse) : List HttpRequest × Except PyErr PyVal :=
  match calendarId with
  | none => ([], .error (.valueError "Missing required parameter 'calendarId'"))
  | some cid =>
    runHttpJson
      { verb := .post
        url := cfg.base_url ++ "/calendars/" ++ cid ++ "/events/watch"
        queryParams := pyFilterNone [("alwaysIncludeEmail", alwaysIncludeEmail),
          ("eventTypes", eventTypes), ("iCalUID", iCalUID),
          ("maxAttendees", maxAttendees), ("maxResults", maxResults),
          ("orderBy", orderBy), ("pageToken", pageToken),
          ("privateExtendedProperty", privateExtendedProperty), ("q", q),
          ("sharedExtendedProperty", sharedExtendedProperty),
          ("showDeleted", showDeleted), ("showHiddenInvitations", showHiddenInvitations),
          ("singleEvents", singleEvents), ("syncToken", syncToken),
          ("timeMax", timeMax), ("timeMin", timeMin), ("timeZone", timeZone),
          ("updatedMin", updatedMin), ("alt", alt), ("fields", fields), ("key", key),
          ("oauth_token", oauth_token), ("prettyPrint", prettyPrint),
          ("quotaUser", quotaUser), ("userIp", userIp)]
        body := some (pyFilterNone [("address", address), ("expiration", expiration),
          ("id", id), ("kind", kind), ("params", params), ("payload", payload),
          ("resourceId", resourceId), ("resourceUri", resourceUri),
          ("token", token), ("type", type)]) } resp

/-- `get_calendar`. -/
def get_calendar (cfg : AppCfg) (calendarId : Option String)
    (alt fields key oauth_token prettyPrint quotaUser userIp : Option PyVal)
    (resp : HttpResponse) : List HttpRequest × Except PyErr PyVal :=
  match calendarId with
  | none => ([], .error (.valueError "Missing required parameter 'calendarId'"))
  | some cid =>
    runHttpJson
      { verb := .get
        url := cfg.base_url ++ "/calendars/" ++ cid
        queryParams := pyFilterNone [("alt", alt), ("fields", fields), ("key", key),
          ("oauth_token", oauth_token), ("prettyPrint", prettyPrint),
          ("quotaUser", quotaUser), ("userIp", userIp)]
        body := none } resp

/-- `update_calendar`. -/
def update_calendar (cfg : AppCfg) (calendarId : Option String)
    (alt fields key oauth_token prettyPrint quotaUser userIp
      conferenceProperties description etag id kind location summary
      timeZone : Option PyVal)
    (resp : HttpResponse) : List HttpRequest × Except PyErr PyVal :=
  match calendarId with
  | none => ([], .error (.valueError "Missing required parameter 'calendarId'"))
  | some cid =>
    runHttpJson
      { verb := .put
        url := cfg.base_url ++ "/calendars/" ++ cid
        queryParams := pyFilterNone [("alt", alt), ("fields", fields), ("key", key),
          ("oauth_token", oauth_token), ("prettyPrint", prettyPrint),
          ("quotaUser", quotaUser), ("userIp", userIp)]
        body := some (pyFilterNone [("conferenceProperties", conferenceProperties),
          ("description", description), ("etag", etag), ("id", id), ("kind", kind),
          ("location", location), ("summary", summary), ("timeZone", timeZone)]) } resp

/-- `delete_calendar`. -/
def delete_calendar (cfg : AppCfg) (calendarId : Option String)
    (alt fields key oauth_token prettyPrint quotaUser userIp : Option PyVal)
    (resp : HttpResponse) : List HttpRequest × Except PyErr PyVal :=
  match calendarId with
  | none => ([], .error (.valueError "Missing required parameter 'calendarId'"))
  | some cid =>
    runHttpJson
      { verb := .delete
        url := cfg.base_url ++ "/calendars/" ++ cid
        queryParams := pyFilterNone [("alt", alt), ("fields", fields), ("key", key),
          ("oauth_token", oauth_token), ("prettyPrint", prettyPrint),
          ("quotaUser", quotaUser), ("userIp", userIp)]
        body := none } resp

/-- `patch_calendar`. -/
def patch_calendar (cfg : AppCfg) (calendarId : Option String)
    (alt fields key oauth_token prettyPrint quotaUser userIp
      conferenceProperties description etag id kind location summary
      timeZone : Option PyVal)
    (resp : HttpResponse) : List HttpRequest × Except PyErr PyVal :=
  match calendarId with
  | none => ([], .error (.valueError "Missing required parameter 'calendarId'"))
  | some cid =>
    runHttpJson
      { verb := .patch
        url := cfg.base_url ++ "/calendars/" ++ cid
        queryParams := pyFilterNone [("alt", alt), ("fields", fields), ("key", key),
          ("oauth_token", oauth_token), ("prettyPrint", prettyPrint),
          ("quotaUser", quotaUser), ("userIp", userIp)]
        body := some (pyFilterNone [("conferenceProperties", conferenceProperties),
          ("description", description), ("etag", etag), ("id", id), ("kind", kind),
          ("location", location), ("summary", summary), ("timeZone", timeZone)]) } resp

/-- `clear_calendar` (`data={}`: an empty body dictionary). -/
def clear_calendar (cfg : AppCfg) (calendarId : Option String)
    (alt fields key oauth_token prettyPrint quotaUser userIp : Option PyVal)
    (resp : HttpResponse) : List HttpRequest × Except PyErr PyVal :=
  match calendarId with
  | none => ([], .error (.valueError "Missing required parameter 'calendarId'"))
  | some cid =>
    runHttpJson
      { verb := .post
        url := cfg.base_url ++ "/calendars/" ++ cid ++ "/clear"
        queryParams := pyFilterNone [("alt", alt), ("fields", fields), ("key", key),
          ("oauth_token", oauth_token), ("prettyPrint", prettyPrint),
          ("quotaUser", quotaUser), ("userIp", userIp)]
        body := some [] } resp

/-- `calendar` (calendar creation; no required parameter). -/
def calendar (cfg : AppCfg)
    (alt fields key oauth_token prettyPrint quotaUser userIp
      conferenceProperties description etag id kind location summary
      timeZone : Option PyVal)
    (resp : HttpResponse) : List HttpRequest × Except PyErr PyVal :=
  runHttpJson
    { verb := .post
      url := cfg.base_url ++ "/calendars"
      queryParams := pyFilterNone [("alt", alt), ("fields", fields), ("key", key),
        ("oauth_token", oauth_token), ("prettyPrint", prettyPrint),
        ("quotaUser", quotaUser), ("userIp", userIp)]
      body := some (pyFilterNone [("conferenceProperties", conferenceProperties),
        ("description", description), ("etag", etag), ("id", id), ("kind", kind),
        ("location", location), ("summary", summary), ("timeZone", timeZone)]) } resp

/-- `get_calendar_list`. -/
def get_calendar_list (cfg : AppCfg) (calendarId : Option String)
    (alt fields key oauth_token prettyPrint quotaUser userIp : Option PyVal)
    (resp : HttpResponse) : List HttpRequest × Except PyErr PyVal :=
  match calendarId with
  | none => ([], .error (.valueError "Missing required parameter 'calendarId'"))
  | some cid =>
    runHttpJson
      { verb := .get
        url := cfg.base_url ++ "/users/me/calendarList/" ++ cid
        queryParams := pyFilterNone [("alt", alt), ("fields", fields), ("key", key),
          ("oauth_token", oauth_token), ("prettyPrint", prettyPrint),
          ("quotaUser", quotaUser), ("userIp", userIp)]
        body := none } resp

/-- `update_calendar_list`. -/
def update_calendar_list (cfg : AppCfg) (calendarId : Option String)
    (colorRgbFormat alt fields key oauth_token prettyPrint quotaUser userIp
      accessRole backgroundColor colorId conferenceProperties defaultReminders
      deleted description etag foregroundColor hidden id kind location
      notificationSettings primary selected summary summaryOverride
      timeZone : Option PyVal)
    (resp : HttpResponse) : List HttpRequest × Except PyErr PyVal :=
  match calendarId with
  | none => ([], .error (.valueError "Missing required parameter 'calendarId'"))
  | some cid =>
    runHttpJson
      { verb := .put
        url := cfg.base_url ++ "/users/me/calendarList/" ++ cid
        queryParams := pyFilterNone [("colorRgbFormat", colorRgbFormat), ("alt", alt),
          ("fields", fields), ("key", key), ("oauth_token", oauth_token),
          ("prettyPrint", prettyPrint), ("quotaUser", quotaUser), ("userIp", userIp)]
        body := some (pyFilterNone [("accessRole", accessRole),
          ("backgroundColor", backgroundColor), ("colorId", colorId),
          ("conferenceProperties", conferenceProperties),
          ("defaultReminders", defaultReminders), ("deleted", deleted),
          ("description", description), ("etag", etag),
          ("foregroundColor", foregroundColor), ("hidden", hidden), ("id", id),
          ("kind", kind), ("location", location),
          ("notificationSettings", notificationSettings), ("primary", primary),
          ("selected", selected), ("summary", summary),
          ("summaryOverride", summaryOverride), ("timeZone", timeZone)]) } resp

/-- `remove_calendar_on_list`. -/
def remove_calendar_on_list (cfg : AppCfg) (calendarId : Option String)
    (alt fields key oauth_token prettyPrint quotaUser userIp : Option PyVal)
    (resp : HttpResponse) : List HttpRequest × Except PyErr PyVal :=
  match calendarId with
  | none => ([], .error (.valueError "Missing required parameter 'calendarId'"))
  | some cid =>
    runHttpJson
      { verb := .delete
        url := cfg.base_url ++ "/users/me/calendarList/" ++ cid
        queryParams := pyFilterNone [("alt", alt), ("fields", fields), ("key", key),
          ("oauth_token", oauth_token), ("prettyPrint", prettyPrint),
          ("quotaUser", quotaUser), ("userIp", userIp)]
        body := none } resp

/-- `patch_calendar_list`. -/
def patch_calendar_list (cfg : AppCfg) (calendarId : Option String)
    (colorRgbFormat alt fields key oauth_token prettyPrint quotaUser userIp
      accessRole backgroundColor colorId conferenceProperties defaultReminders
      deleted description etag foregroundColor hidden id kind location
      notificationSettings primary selected summary summaryOverride
      timeZone : Option PyVal)
    (resp : HttpResponse) : List HttpRequest × Except PyErr PyVal :=
  match calendarId with
  | none => ([], .error (.valueError "Missing required parameter 'calendarId'"))
  | some cid =>
    runHttpJson
      { verb := .patch
        url := cfg.base_url ++ "/users/me/calendarList/" ++ cid
        queryParams := pyFilterNone [("colorRgbFormat", colorRgbFormat), ("alt", alt),
          ("fields", fields), ("key", key), ("oauth_token", oauth_token),
          ("prettyPrint", prettyPrint), ("quotaUser", quotaUser), ("userIp", userIp)]
        body := some (pyFilterNone [("accessRole", accessRole),
          ("backgroundColor", backgroundColor), ("colorId", colorId),
          ("conferenceProperties", conferenceProperties),
          ("defaultReminders", defaultReminders), ("deleted", deleted),
          ("description", description), ("etag", etag),
          ("foregroundColor", foregroundColor), ("hidden", hidden), ("id", id),
          ("kind", kind), ("location", location),
          ("notificationSettings", notificationSettings), ("primary", primary),
          ("selected", selected), ("summary", summary),
          ("summaryOverride", summaryOverride), ("timeZone", timeZone)]) } resp

/-- `insert_calendar_on_list` (no required parameter). -/
def insert_calendar_on_list (cfg : AppCfg)
    (colorRgbFormat alt fields key oauth_token prettyPrint quotaUser userIp
      accessRole backgroundColor colorId conferenceProperties defaultReminders
      deleted description etag foregroundColor hidden id kind location
      notificationSettings primary selected summary summaryOverride
      timeZone : Option PyVal)
    (resp : HttpResponse) : List HttpRequest × Except PyErr PyVal :=
  runHttpJson
    { verb := .post
      url := cfg.base_url ++ "/users/me/calendarList"
      queryParams := pyFilterNone [("colorRgbFormat", colorRgbFormat), ("alt", alt),
        ("fields", fields), ("key", key), ("oauth_token", oauth_token),
        ("prettyPrint", prettyPrint), ("quotaUser", quotaUser), ("userIp", userIp)]
      body := some (pyFilterNone [("accessRole", accessRole),
        ("backgroundColor", backgroundColor), ("colorId", colorId),
        ("conferenceProperties", conferenceProperties),
        ("defaultReminders", defaultReminders), ("deleted", deleted),
        ("description", description), ("etag", etag),
        ("foregroundColor", foregroundColor), ("hidden", hidden), ("id", id),
        ("kind", kind), ("location", location),
        ("notificationSettings", notificationSettings), ("primary", primary),
        ("selected", selected), ("summary", summary),
        ("summaryOverride", summaryOverride), ("timeZone", timeZone)]) } resp

/-- `list_calendars` (the required parameter here is `userId`). -/
def list_calendars (cfg : AppCfg) (userId : Option String)
    (maxResults minAccessRole pageToken showDeleted showHidden syncToken alt
      fields key oauth_token prettyPrint quotaUser userIp : Option PyVal)
    (resp : HttpResponse) : List HttpRequest × Except PyErr PyVal :=
  match userId with
  | none => ([], .error (.valueError "Missing required parameter 'userId'"))
  | some uid =>
    runHttpJson
      { verb := .get
        url := cfg.base_url ++ "/users/" ++ uid ++ "/calendarList"
        queryParams := pyFilterNone [("maxResults", maxResults),
          ("minAccessRole", minAccessRole), ("pageToken", pageToken),
          ("showDeleted", showDeleted), ("showHidden", showHidden),
          ("syncToken", syncToken), ("alt", alt), ("fields", fields), ("key", key),
          ("oauth_token", oauth_token), ("prettyPrint", prettyPrint),
          ("quotaUser", quotaUser), ("userIp", userIp)]
        body := none } resp

/-- `watch_calendar_list` (no required parameter). -/
def watch_calendar_list (cfg : AppCfg)
    (maxResults minAccessRole pageToken showDeleted showHidden syncToken alt
      fields key oauth_token prettyPrint quotaUser userIp address expiration
      id kind params payload resourceId resourceUri token type : Option PyVal)
    (resp : HttpResponse) : List HttpRequest × Except PyErr PyVal :=
  runHttpJson
    { verb := .post
      url := cfg.base_url ++ "/users/me/calendarList/watch"
      queryParams := pyFilterNone [("maxResults", maxResults),
        ("minAccessRole", minAccessRole), ("pageToken", pageToken),
        ("showDeleted", showDeleted), ("showHidden", showHidden),
        ("syncToken", syncToken), ("alt", alt), ("fields", fields), ("key", key),
        ("oauth_token", oauth_token), ("prettyPrint", prettyPrint),
        ("quotaUser", quotaUser), ("userIp", userIp)]
      body := some (pyFilterNone [("address", address), ("expiration", expiration),
        ("id", id), ("kind", kind), ("params", params), ("payload", payload),
        ("resourceId", resourceId), ("resourceUri", resourceUri),
        ("token", token), ("type", type)]) } resp

/-- `list_calendar_settings` (no required parameter). -/
def list_calendar_settings (cfg : AppCfg)
    (maxResults pageToken syncToken alt fields key oauth_token prettyPrint
      quotaUser userIp : Option PyVal)
    (resp : HttpResponse) : List HttpRequest × Except PyErr PyVal :=
  runHttpJson
    { verb := .get
      url := cfg.base_url ++ "/users/me/settings"
      queryParams := pyFilterNone [("maxResults", maxResults), ("pageToken", pageToken),
        ("syncToken", syncToken), ("alt", alt), ("fields", fields), ("key", key),
        ("oauth_token", oauth_token), ("prettyPrint", prettyPrint),
        ("quotaUser", quotaUser), ("userIp", userIp)]
      body := none } resp

/-- `get_calendar_settings` (the required parameter here is `setting`). -/
def get_calendar_settings (cfg : AppCfg) (setting : Option String)
    (alt fields key oauth_token prettyPrint quotaUser userIp : Option PyVal)
    (resp : HttpResponse) : List HttpRequest × Except PyErr PyVal :=
  match setting with
  | none => ([], .error (.valueError "Missing required parameter 'setting'"))
  | some st =>
    runHttpJson
      { verb := .get
        url := cfg.base_url ++ "/users/me/settings/" ++ st
        queryParams := pyFilterNone [("alt", alt), ("fields", fields), ("key", key),
          ("oauth_token", oauth_token), ("prettyPrint", prettyPrint),
          ("quotaUser", quotaUser), ("userIp", userIp)]
        body := none } resp

/-- `watch_calendar_settings` (no required parameter). -/
def watch_calendar_settings (cfg : AppCfg)
    (maxResults pageToken syncToken alt fields key oauth_token prettyPrint
      quotaUser userIp address expiration id kind params payload resourceId
      resourceUri token type : Option PyVal)
    (resp : HttpResponse) : List HttpRequest × Except PyErr PyVal :=
  runHttpJson
    { verb := .post
      url := cfg.base_url ++ "/users/me/settings/watch"
      queryParams := pyFilterNone [("maxResults", maxResults), ("pageToken", pageToken),
        ("syncToken", syncToken), ("alt", alt), ("fields", fields), ("key", key),
        ("oauth_token", oauth_token), ("prettyPrint", prettyPrint),
        ("quotaUser", quotaUser), ("userIp", userIp)]
      body := some (pyFilterNone [("address", address), ("expiration", expiration),
        ("id", id), ("kind", kind), ("params", params), ("payload", payload),
        ("resourceId", resourceId), ("resourceUri", resourceUri),
        ("token", token), ("type", type)]) } resp

/-- `stop_calendar_channel` (no required parameter). -/
def stop_calendar_channel (cfg : AppCfg)
    (alt fields key oauth_token prettyPrint quotaUser userIp address
      expiration id kind params payload resourceId resourceUri token
      type : Option PyVal)
    (resp : HttpResponse) : List HttpRequest × Except PyErr PyVal :=
  runHttpJson
    { verb := .post
      url := cfg.base_url ++ "/channels/stop"
      queryParams := pyFilterNone [("alt", alt), ("fields", fields), ("key", key),
        ("oauth_token", oauth_token), ("prettyPrint", prettyPrint),
        ("quotaUser", quotaUser), ("userIp", userIp)]
      body := some (pyFilterNone [("address", address), ("expiration", expiration),
        ("id", id), ("kind", kind), ("params", params), ("payload", payload),
        ("resourceId", resourceId), ("resourceUri", resourceUri),
        ("token", token), ("type", type)]) } resp

/-- `get_calendar_colors` (no required parameter). -/
def get_calendar_colors (cfg : AppCfg)
    (alt fields key oauth_token prettyPrint quotaUser userIp : Option PyVal)
    (resp : HttpResponse) : List HttpRequest × Except PyErr PyVal :=
  runHttpJson
    { verb := .get
      url := cfg.base_url ++ "/colors"
      queryParams := pyFilterNone [("alt", alt), ("fields", fields), ("key", key),
        ("oauth_token", oauth_token), ("prettyPrint", prettyPrint),
        ("quotaUser", quotaUser), ("userIp", userIp)]
      body := none } resp

/-- `query_free_busy` (no required parameter). -/
def query_free_busy (cfg : AppCfg)
    (alt fields key oauth_token prettyPrint quotaUser userIp
      calendarExpansionMax groupExpansionMax items timeMax timeMin
      timeZone : Option PyVal)
    (resp : HttpResponse) : List HttpRequest × Except PyErr PyVal :=
  runHttpJson
    { verb := .post
      url := cfg.base_url ++ "/freeBusy"
      queryParams := pyFilterNone [("alt", alt), ("fields", fields), ("key", key),
        ("oauth_token", oauth_token), ("prettyPrint", prettyPrint),
        ("quotaUser", quotaUser), ("userIp", userIp)]
      body := some (pyFilterNone [("calendarExpansionMax", calendarExpansionMax),
        ("groupExpansionMax", groupExpansionMax), ("items", items),
        ("timeMax", timeMax), ("timeMin", timeMin), ("timeZone", timeZone)]) } resp

/-! ### The hand-written, formatting operations -/

/-- A proleptic Gregorian date, standing for `datetime.date`; the current
date (`datetime.now(timezone.utc).date()`) is an ambient input of
`get_today_events` and is passed explicitly. -/
structure PyDate where
  year : Nat
  month : Nat
  day : Nat
deriving DecidableEq

/-- The following day. -/
def nextDay (d : PyDate) : PyDate :=
  if d.day < daysInMonth d.year d.month then ⟨d.year, d.month, d.day + 1⟩
  else if d.month < 12 then ⟨d.year, d.month + 1, 1⟩
  else ⟨d.year + 1, 1, 1⟩

/-- The previous day. -/
def prevDay (d : PyDate) : PyDate :=
  if 1 < d.day then ⟨d.year, d.month, d.day - 1⟩
  else if 1 < d.month then ⟨d.year, d.month - 1, daysInMonth d.year (d.month - 1)⟩
  else ⟨d.year - 1, 12, 31⟩

/-- `today + timedelta(days=n)` (the `date` range overflow at years
1/9999 is not modelled). -/
def addDays (d : PyDate) (n : Int) : PyDate :=
  if 0 ≤ n then nextDay^[n.toNat] d else prevDay^[(-n).toNat] d

/-- `date.isoformat()`: `YYYY-MM-DD`, zero-padded. -/
def isoformatDate (d : PyDate) : String :=
  String.mk (fourDigL d.year ++ ('-' :: twoDigL d.month) ++ ('-' :: twoDigL d.day))

/-- Substring test on character lists (`needle in haystack` for strings). -/
def isSubstrL (needle : List Char) : List Char → Bool
  | [] => needle.isEmpty
  | c :: cs => needle.isPrefixOf (c :: cs) || isSubstrL needle cs

/-- Python `needle in v` for a string needle: substring test on a string,
membership on a list, key membership on a dict, `TypeError` otherwise. -/
def pyInStr (needle : String) : PyVal → Except PyErr Bool
  | .str s => .ok (isSubstrL needle.data s.data)
  | .arr xs => .ok (xs.any fun x => match x with | .str s => s == needle | _ => false)
  | .obj fs => .ok (hasKey fs needle)
  | _ => .error .typeError

/-- Python `"T" in v` (the single-character case, used by the formatting
code; on a string it is a character membership). -/
def pyInT : PyVal → Except PyErr Bool
  | .str s => .ok (containsTChar s)
  | .arr xs => .ok (xs.any fun x => match x with | .str s => s == "T" | _ => false)
  | .obj fs => .ok (hasKey fs "T")
  | _ => .error .typeError

/-- A query-parameter entry added under a Python truthiness test
(`if arg: params[k] = arg`) for a string-typed optional argument. -/
def strParam (k : String) (o : Option String) : List (String × PyVal) :=
  match o with
  | some s => if s.isEmpty then [] else [(k, PyVal.str s)]
  | none => []

/-- The body of `get_today_events`' per-event loop: date extraction, the
`_format_datetime` call and, for the single-day view, the
`formatted_time.split(" ")[1]`/`[2]` indexing. -/
def todayEventLine (days : Int) (event : PyVal) : Except PyErr String := do
  let ev ← asDict event
  let start := dictGetD ev "start" (.obj [])
  let sf ← asDict start
  let dtv := dictGetD sf "dateTime" (.str "")
  let hasT ← pyInT dtv
  let event_date ←
    if hasT then
      match dictGetD sf "date" dtv with
      | .str s => do
          let p ← pyIndex (pySplit 'T' s) 0
          pure (PyVal.str p)
      | _ => Except.error .attributeError
    else pure (dictGetD sf "date" (.str ""))
  let start_time := dictGetD sf "dateTime" (dictGetD sf "date" (.str "All day"))
  let hasT2 ← pyInT start_time
  let time_display ←
    if hasT2 then do
      let formatted_time ← format_datetime_dyn start_time
      if days > 1 then pure formatted_time
      else do
        let a ← pyIndex (pySplit ' ' formatted_time) 1
        let b ← pyIndex (pySplit ' ' formatted_time) 2
        pure (a ++ " " ++ b)
    else
      pure (if days > 1 then pyStr event_date ++ " (All day)" else "All day")
  let summary := pyStr (dictGetD ev "summary" (.str "Untitled event"))
  let event_id := pyStr (dictGetD ev "id" (.str "No ID"))
  pure ("- " ++ time_display ++ ": " ++ summary ++ " (ID: " ++ event_id ++ ")\n")

/-- `get_today_events`.  `today` stands for the ambient
`datetime.now(timezone.utc).date()`. -/
def get_today_events (cfg : AppCfg) (today : PyDate) (days : Int)
    (max_results : Option Int) (time_zone : Option String)
    (resp : HttpResponse) : List HttpRequest × Except PyErr PyVal :=
  let end_date := addDays today days
  let time_min := isoformatDate today ++ "T00:00:00Z"
  let time_max := isoformatDate end_date ++ "T00:00:00Z"
  let params := [("timeMin", PyVal.str time_min), ("timeMax", PyVal.str time_max),
      ("singleEvents", PyVal.str "true"), ("orderBy", PyVal.str "startTime")]
    ++ (match max_results with | some n => [("maxResults", PyVal.int n)] | none => [])
    ++ strParam "timeZone" time_zone
  let date_range := if days = 1 then "today" else "the next " ++ toString days ++ " days"
  let req : HttpRequest :=
    { verb := .get, url := cfg.base_api_url ++ "/events", queryParams := params, body := none }
  ([req], do
    let _ ← raise_for_status resp
    let body ← responseJson resp
    let data ← asDict body
    let events := dictGetD data "items" (.arr [])
    if pyTruthy events = false then
      pure (PyVal.str ("No events scheduled for " ++ date_range ++ "."))
    else do
      let evs ← asList events
      let items ← evs.mapM (todayEventLine days)
      pure (PyVal.str ("Events for " ++ date_range ++ ":\n\n" ++ String.join items)))

/-- One line of `get_event`'s attendee listing. -/
def attendeeLine (i : Nat) (att : PyVal) : Except PyErr String := do
  let a ← asDict att
  let email := dictGetD a "email" (.str "No email")
  let name := dictGetD a "displayName" email
  let response_status := dictGetD a "responseStatus" (.str "Unknown")
  let formatted_status ←
    match response_status with
    | .str "accepted" => pure (PyVal.str "Accepted")
    | .str "declined" => pure (PyVal.str "Declined")
    | .str "tentative" => pure (PyVal.str "Maybe")
    | .str "needsAction" => pure (PyVal.str "Not responded")
    | .arr _ => Except.error .typeError
    | .obj _ => Except.error .typeError
    | v => pure v
  pure ("  " ++ toString i ++ ". " ++ pyStr name ++ " (" ++ pyStr email ++ ") - "
    ++ pyStr formatted_status ++ "\n")

/-- The formatting part of `get_event`: summary, time span, location,
description, creator, organizer, recurrence flag and the attendee block. -/
def formatEventDetails (event_id : String) (event : PyVal) : Except PyErr String := do
  let ev ← asDict event
  let summary := pyStr (dictGetD ev "summary" (.str "Untitled event"))
  let description := pyStr (dictGetD ev "description" (.str "No description"))
  let location := pyStr (dictGetD ev "location" (.str "No location specified"))
  let start := dictGetD ev "start" (.obj [])
  let endv := dictGetD ev "end" (.obj [])
  let sf ← asDict start
  let ef ← asDict endv
  let start_time := dictGetD sf "dateTime" (dictGetD sf "date" (.str "Unknown"))
  let end_time := dictGetD ef "dateTime" (dictGetD ef "date" (.str "Unknown"))
  let start_formatted ← format_datetime_dyn start_time
  let end_formatted ← format_datetime_dyn end_time
  let creatorD ← asDict (dictGetD ev "creator" (.obj []))
  let creator := pyStr (dictGetD creatorD "email" (.str "Unknown"))
  let organizerD ← asDict (dictGetD ev "organizer" (.obj []))
  let organizer := pyStr (dictGetD organizerD "email" (.str "Unknown"))
  let recurrence := if hasKey ev "recurrence" then "Yes" else "No"
  let attendees := dictGetD ev "attendees" (.arr [])
  let attendee_info ←
    if pyTruthy attendees then do
      let ats ← asList attendees
      let items ← (ats.enumFrom 1).mapM (fun p => attendeeLine p.1 p.2)
      pure ("\nAttendees:\n" ++ String.join items)
    else pure ""
  pure ("Event: " ++ summary ++ "\n" ++ "ID: " ++ event_id ++ "\n"
    ++ "When: " ++ start_formatted ++ " to " ++ end_formatted ++ "\n"
    ++ "Where: " ++ location ++ "\n"
    ++ "Description: " ++ description ++ "\n"
    ++ "Creator: " ++ creator ++ "\n"
    ++ "Organizer: " ++ organizer ++ "\n"
    ++ "Recurring: " ++ recurrence ++ "\n"
    ++ attendee_info)

/-- `get_event`. -/
def get_event (cfg : AppCfg) (event_id : String) (max_attendees : Option Int)
    (time_zone : Option String) (resp : HttpResponse) :
    List HttpRequest × Except PyErr PyVal :=
  let params :=
    (match max_attendees with | some n => [("maxAttendees", PyVal.int n)] | none => [])
    ++ strParam "timeZone" time_zone
  let req : HttpRequest :=
    { verb := .get, url := cfg.base_api_url ++ "/events/" ++ event_id,
      queryParams := params, body := none }
  ([req], do
    let _ ← raise_for_status resp
    let event ← responseJson resp
    let s ← formatEventDetails event_id event
    pure (PyVal.str s))

/-- One numbered block of `list_events`' output. -/
def listEventItem (n : Nat) (i : Nat) (event : PyVal) : Except PyErr String := do
  let ev ← asDict event
  let event_id := pyStr (dictGetD ev "id" (.str "No ID"))
  let summary := pyStr (dictGetD ev "summary" (.str "Untitled event"))
  let start := dictGetD ev "start" (.obj [])
  let sf ← asDict start
  let start_time := dictGetD sf "dateTime" (dictGetD sf "date" (.str "Unknown"))
  let start_formatted ← format_datetime_dyn start_time
  let location := pyStr (dictGetD ev "location" (.str "No location specified"))
  let recurring_info := if hasKey ev "recurrence" then " (Recurring)" else ""
  let base := toString i ++ ". " ++ summary ++ recurring_info ++ "\n"
    ++ "   ID: " ++ event_id ++ "\n"
    ++ "   When: " ++ start_formatted ++ "\n"
    ++ "   Where: " ++ location ++ "\n"
  pure (if i < n then base ++ "\n" else base)

/-- `list_events`.  `nowIso` stands for the ambient
`datetime.utcnow().isoformat() + "Z"` used when `time_min` is not given. -/
def list_events (cfg : AppCfg) (nowIso : String) (max_results : Int)
    (time_min time_max q : Option String) (order_by : String)
    (single_events : Bool) (time_zone page_token : Option String)
    (resp : HttpResponse) : List HttpRequest × Except PyErr PyVal :=
  let params := [("maxResults", PyVal.int max_results),
      ("singleEvents", PyVal.str (if single_events then "true" else "false")),
      ("orderBy", PyVal.str order_by),
      ("timeMin", PyVal.str (match time_min with
        | some t => if t.isEmpty then nowIso else t
        | none => nowIso))]
    ++ strParam "timeMax" time_max ++ strParam "q" q
    ++ strParam "timeZone" time_zone ++ strParam "pageToken" page_token
  let req : HttpRequest :=
    { verb := .get, url := cfg.base_api_url ++ "/events", queryParams := params, body := none }
  ([req], do
    let _ ← raise_for_status resp
    let body ← responseJson resp
    let data ← asDict body
    let events := dictGetD data "items" (.arr [])
    if pyTruthy events = false then
      pure (PyVal.str "No events found matching your criteria.")
    else do
      let evs ← asList events
      let calendar_summary := pyStr (dictGetD data "summary" (.str "Your Calendar"))
      let time_zone_info := pyStr (dictGetD data "timeZone" (.str "Unknown"))
      let items ← (evs.enumFrom 1).mapM (fun p => listEventItem evs.length p.1 p.2)
      let result := "Events from " ++ calendar_summary ++ " (Time Zone: "
        ++ time_zone_info ++ "):\n\n" ++ String.join items
      let result := if hasKey data "nextPageToken" then
          result ++ "\nMore events available. Use page_token='"
            ++ pyStr (dictGetD data "nextPageToken" PyVal.null) ++ "' to see more."
        else result
      pure (PyVal.str result))

/-- `quick_add_event` (`data=None`: no request body). -/
def quick_add_event (cfg : AppCfg) (text : String) (send_updates : String)
    (resp : HttpResponse) : List HttpRequest × Except PyErr PyVal :=
  let req : HttpRequest :=
    { verb := .post, url := cfg.base_api_url ++ "/events/quickAdd",
      queryParams := [("text", PyVal.str text), ("sendUpdates", PyVal.str send_updates)],
      body := none }
  ([req], do
    let _ ← raise_for_status resp
    let event ← responseJson resp
    let ev ← asDict event
    let event_id := pyStr (dictGetD ev "id" (.str "Unknown"))
    let summary := pyStr (dictGetD ev "summary" (.str "Untitled event"))
    let start := dictGetD ev "start" (.obj [])
    let endv := dictGetD ev "end" (.obj [])
    let sf ← asDict start
    let ef ← asDict endv
    let start_time := dictGetD sf "dateTime" (dictGetD sf "date" (.str "Unknown"))
    let end_time := dictGetD ef "dateTime" (dictGetD ef "date" (.str "Unknown"))
    let start_formatted ← format_datetime_dyn start_time
    let end_formatted ← format_datetime_dyn end_time
    let location := pyStr (dictGetD ev "location" (.str "No location specified"))
    let result := "Successfully created event!\n\n"
      ++ "Summary: " ++ summary ++ "\n"
      ++ "When: " ++ start_formatted
      ++ (if start_formatted ≠ end_formatted then " to " ++ end_formatted else "")
      ++ "\nWhere: " ++ location ++ "\n"
      ++ "Event ID: " ++ event_id ++ "\n"
      ++ "\nUse get_event('" ++ event_id ++ "') to see full details."
    pure (PyVal.str result))

/-- One numbered block of `get_event_instances`' output. -/
def instanceItem (n : Nat) (i : Nat) (item : PyVal) : Except PyErr String := do
  let inst ← asDict item
  let instance_id := pyStr (dictGetD inst "id" (.str "No ID"))
  let status := dictGetD inst "status" (.str "confirmed")
  let status_display :=
    match status with
    | .str "cancelled" => " [CANCELLED]"
    | .str "tentative" => " [TENTATIVE]"
    | _ => ""
  let start := dictGetD inst "start" (.obj [])
  let original_start_time := dictGetD inst "originalStartTime" (.obj [])
  let is_modified ←
    if pyTruthy original_start_time then pyInStr "dateTime" original_start_time
    else pure false
  let modified_indicator := if is_modified then " [MODIFIED]" else ""
  let sf ← asDict start
  let start_time := dictGetD sf "dateTime" (dictGetD sf "date" (.str "Unknown"))
  let formatted_time ← format_datetime_dyn start_time
  let base := toString i ++ ". " ++ formatted_time ++ status_display
    ++ modified_indicator ++ "\n" ++ "   Instance ID: " ++ instance_id ++ "\n"
  let base ←
    if is_modified then do
      let od ← asDict original_start_time
      let orig_time := dictGetD od "dateTime" (dictGetD od "date" (.str "Unknown"))
      let orig_formatted ← format_datetime_dyn orig_time
      pure (base ++ "   Original time: " ++ orig_formatted ++ "\n")
    else pure base
  pure (if i < n then base ++ "\n" else base)

/-- `get_event_instances`. -/
def get_event_instances (cfg : AppCfg) (event_id : String) (max_results : Int)
    (time_min time_max time_zone : Option String) (show_deleted : Bool)
    (page_token : Option String) (resp : HttpResponse) :
    List HttpRequest × Except PyErr PyVal :=
  let params := [("maxResults", PyVal.int max_results),
      ("showDeleted", PyVal.str (if show_deleted then "true" else "false"))]
    ++ strParam "timeMin" time_min ++ strParam "timeMax" time_max
    ++ strParam "timeZone" time_zone ++ strParam "pageToken" page_token
  let req : HttpRequest :=
    { verb := .get, url := cfg.base_api_url ++ "/events/" ++ event_id ++ "/instances",
      queryParams := params, body := none }
  ([req], do
    let _ ← raise_for_status resp
    let body ← responseJson resp
    let data ← asDict body
    let instances := dictGetD data "items" (.arr [])
    if pyTruthy instances = false then
      pure (PyVal.str ("No instances found for recurring event with ID: " ++ event_id))
    else do
      let ins ← asList instances
      let first ← pyIndex ins 0
      let fd ← asDict first
      let parent_summary := pyStr (dictGetD fd "summary" (.str "Untitled recurring event"))
      let items ← (ins.enumFrom 1).mapM (fun p => instanceItem ins.length p.1 p.2)
      let result := "Instances of recurring event: " ++ parent_summary ++ "\n\n"
        ++ String.join items
      let result := if hasKey data "nextPageToken" then
          result ++ "\nMore instances available. Use page_token='"
            ++ pyStr (dictGetD data "nextPageToken" PyVal.null) ++ "' to see more."
        else result
      pure (PyVal.str result))

/-! ### Predicates used by the claims -/

/-- `sub` occurs as a substring of `s`. -/
def strContains (s sub : String) : Prop :=
  ∃ l r, s = l ++ sub ++ r

/-- The request's URL begins with the Google Calendar v3 base URL. -/
def onApiBase (req : HttpRequest) : Bool :=
  "https://www.googleapis.com/calendar/v3".data.isPrefixOf req.url.data

/-- The claim's reading of the event's start/end time: the `dateTime` field
of `event[k]`, else its `date` field, else `"Unknown"` (the identity on a
non-object `event[k]`, a case in which `get_event` cannot succeed). -/
def eventTimeRaw (fs : List (String × PyVal)) (k : String) : PyVal :=
  match dictGetD fs k (.obj []) with
  | .obj tf => dictGetD tf "dateTime" (dictGetD tf "date" (.str "Unknown"))
  | v => v

/-- The normalization step as the spec words it — only a *trailing* `Z`
replaced by `+00:00`.  Definition follows the claim's words, for comparison
with `zNormalize`, which (like the source) replaces *every* `Z` when the
string ends with one. -/
def stripTrailingZOnce (s : String) : String :=
  if endsWithZ s then String.mk (s.data.dropLast ++ ['+', '0', '0', ':', '0', '0'])
  else s

/-! ### Method calls as state transformers

Python methods may assign instance attributes, so the faithful embedding of
"invoke one method on the object" is a state transformer on `AppCfg`.  A
`Call` is one invocation of one of the 36 tools `list_tools` exposes, with
its arguments and the HTTP response the client would return (plus the
ambient clock inputs for the two time-dependent methods); `exec` runs it.
No method of `GoogleCalendarApp` contains an attribute assignment, so every
branch returns the configuration it was given. -/
inductive Call where
  | get_event (event_id : String) (max_attendees : Option Int)
      (time_zone : Option String) (resp : HttpResponse) : Call
  | get_today_events (today : PyDate) (days : Int) (max_results : Option Int)
      (time_zone : Option String) (resp : HttpResponse) : Call
  | list_events (nowIso : String) (max_results : Int)
      (time_min time_max q : Option String) (order_by : String)
      (single_events : Bool) (time_zone page_token : Option String)
      (resp : HttpResponse) : Call
  | quick_add_event (text : String) (send_updates : String)
      (resp : HttpResponse) : Call
  | get_event_instances (event_id : String) (max_results : Int)
      (time_min time_max time_zone : Option String) (show_deleted : Bool)
      (page_token : Option String) (resp : HttpResponse) : Call
  | get_access_control_rule (calendarId ruleId : Option String)
      (a1 a2 a3 a4 a5 a6 a7 : Option PyVal) (resp : HttpResponse) : Call
  | update_access_control_rule (calendarId ruleId : Option String)
      (a1 a2 a3 a4 a5 a6 a7 a8 b1 b2 b3 b4 b5 : Option PyVal)
      (resp : HttpResponse) : Call
  | delete_access_control_rule (calendarId ruleId : Option String)
      (a1 a2 a3 a4 a5 a6 a7 : Option PyVal) (resp : HttpResponse) : Call
  | patch_access_control_rule (calendarId ruleId : Option String)
      (a1 a2 a3 a4 a5 a6 a7 a8 b1 b2 b3 b4 b5 : Option PyVal)
      (resp : HttpResponse) : Call
  | return_access_control_rules (calendarId : Option String)
      (a1 a2 a3 a4 a5 a6 a7 a8 a9 a10 a11 : Option PyVal)
      (resp : HttpResponse) : Call
  | insert_access_control_rule (calendarId : Option String)
      (a1 a2 a3 a4 a5 a6 a7 a8 b1 b2 b3 b4 b5 : Option PyVal)
      (resp : HttpResponse) : Call
  | watch_access_control_rules (calendarId : Option String)
      (a1 a2 a3 a4 a5 a6 a7 a8 a9 a10 a11 b1 b2 b3 b4 b5 b6 b7 b8 b9 b10 : Option PyVal)
      (resp : HttpResponse) : Call
  | delete_event (calendarId eventId : Option String)
      (a1 a2 a3 a4 a5 a6 a7 a8 a9 : Option PyVal) (resp : HttpResponse) : Call
  | insert_event (calendarId eventId : Option String)
      (a1 a2 a3 a4 a5 a6 a7 a8 a9 a10 a11 a12 a13 a14 a15 a16 : Option PyVal)
      (resp : HttpResponse) : Call
  | move_event (calendarId eventId : Option String)
      (a1 a2 a3 a4 a5 a6 a7 a8 a9 a10 : Option PyVal) (resp : HttpResponse) : Call
  | return_events_from_calendar (calendarId : Option String)
      (a1 a2 a3 a4 a5 a6 a7 a8 a9 a10 a11 a12 a13 a14 a15 a16 a17 a18 a19 a20
        a21 a22 a23 a24 a25 : Option PyVal) (resp : HttpResponse) : Call
  | watch_events (calendarId : Option String)
      (a1 a2 a3 a4 a5 a6 a7 a8 a9 a10 a11 a12 a13 a14 a15 a16 a17 a18 a19 a20
        a21 a22 a23 a24 a25 b1 b2 b3 b4 b5 b6 b7 b8 b9 b10 : Option PyVal)
      (resp : HttpResponse) : Call
  | get_calendar (calendarId : Option String)
      (a1 a2 a3 a4 a5 a6 a7 : Option PyVal) (resp : HttpResponse) : Call
  | update_calendar (calendarId : Option String)
      (a1 a2 a3 a4 a5 a6 a7 b1 b2 b3 b4 b5 b6 b7 b8 : Option PyVal)
      (resp : HttpResponse) : Call
  | delete_calendar (calendarId : Option String)
      (a1 a2 a3 a4 a5 a6 a7 : Option PyVal) (resp : HttpResponse) : Call
  | patch_calendar (calendarId : Option String)
      (a1 a2 a3 a4 a5 a6 a7 b1 b2 b3 b4 b5 b6 b7 b8 : Option PyVal)
      (resp : HttpResponse) : Call
  | clear_calendar (calendarId : Option String)
      (a1 a2 a3 a4 a5 a6 a7 : Option PyVal) (resp : HttpResponse) : Call
  | calendar (a1 a2 a3 a4 a5 a6 a7 b1 b2 b3 b4 b5 b6 b7 b8 : Option PyVal)
      (resp : HttpResponse) : Call
  | get_calendar_list (calendarId : Option String)
      (a1 a2 a3 a4 a5 a6 a7 : Option PyVal) (resp : HttpResponse) : Call
  | update_calendar_list (calendarId : Option String)
      (a1 a2 a3 a4 a5 a6 a7 a8 b1 b2 b3 b4 b5 b6 b7 b8 b9 b10 b11 b12 b13 b14
        b15 b16 b17 b18 b19 : Option PyVal) (resp : HttpResponse) : Call
  | remove_calendar_on_list (calendarId : Option String)
      (a1 a2 a3 a4 a5 a6 a7 : Option PyVal) (resp : HttpResponse) : Call
  | patch_calendar_list (calendarId : Option String)
      (a1 a2 a3 a4 a5 a6 a7 a8 b1 b2 b3 b4 b5 b6 b7 b8 b9 b10 b11 b12 b13 b14
        b15 b16 b17 b18 b19 : Option PyVal) (resp : HttpResponse) : Call
  | insert_calendar_on_list
      (a1 a2 a3 a4 a5 a6 a7 a8 b1 b2 b3 b4 b5 b6 b7 b8 b9 b10 b11 b12 b13 b14
        b15 b16 b17 b18 b19 : Option PyVal) (resp : HttpResponse) : Call
  | list_calendars (userId : Option String)
      (a1 a2 a3 a4 a5 a6 a7 a8 a9 a10 a11 a12 a13 : Option PyVal)
      (resp : HttpResponse) : Call
  | watch_calendar_list
      (a1 a2 a3 a4 a5 a6 a7 a8 a9 a10 a11 a12 a13 b1 b2 b3 b4 b5 b6 b7 b8 b9
        b10 : Option PyVal) (resp : HttpResponse) : Call
  | list_calendar_settings (a1 a2 a3 a4 a5 a6 a7 a8 a9 a10 : Option PyVal)
      (resp : HttpResponse) : Call
  | get_calendar_settings (setting : Option String)
      (a1 a2 a3 a4 a5 a6 a7 : Option PyVal) (resp : HttpResponse) : Call
  | watch_calendar_settings
      (a1 a2 a3 a4 a5 a6 a7 a8 a9 a10 b1 b2 b3 b4 b5 b6 b7 b8 b9 b10 : Option PyVal)
      (resp : HttpResponse) : Call
  | stop_calendar_channel
      (a1 a2 a3 a4 a5 a6 a7 b1 b2 b3 b4 b5 b6 b7 b8 b9 b10 : Option PyVal)
      (resp : HttpResponse) : Call
  | get_calendar_colors (a1 a2 a3 a4 a5 a6 a7 : Option PyVal)
      (resp : HttpResponse) : Call
  | query_free_busy (a1 a2 a3 a4 a5 a6 a7 b1 b2 b3 b4 b5 b6 : Option PyVal)
      (resp : HttpResponse) : Call

/-- Run one method invocation on the adapter object: the new instance state
and the invocation's trace and outcome. -/
def exec (cfg : AppCfg) : Call → AppCfg × (List HttpRequest × Except PyErr PyVal)
  | .get_event e ma tz r => (cfg, get_event cfg e ma tz r)
  | .get_today_events t d mr tz r => (cfg, get_today_events cfg t d mr tz r)
  | .list_events no mr tmi tma q ob se tz pt r =>
      (cfg, list_events cfg no mr tmi tma q ob se tz pt r)
  | .quick_add_event t su r => (cfg, quick_add_event cfg t su r)
  | .get_event_instances e mr tmi tma tz sd pt r =>
      (cfg, get_event_instances cfg e mr tmi tma tz sd pt r)
  | .get_access_control_rule c ru a1 a2 a3 a4 a5 a6 a7 r =>
      (cfg, get_access_control_rule cfg c ru a1 a2 a3 a4 a5 a6 a7 r)
  | .update_access_control_rule c ru a1 a2 a3 a4 a5 a6 a7 a8 b1 b2 b3 b4 b5 r =>
      (cfg, update_access_control_rule cfg c ru a1 a2 a3 a4 a5 a6 a7 a8 b1 b2 b3 b4 b5 r)
  | .delete_access_control_rule c ru a1 a2 a3 a4 a5 a6 a7 r =>
      (cfg, delete_access_control_rule cfg c ru a1 a2 a3 a4 a5 a6 a7 r)
  | .patch_access_control_rule c ru a1 a2 a3 a4 a5 a6 a7 a8 b1 b2 b3 b4 b5 r =>
      (cfg, patch_access_control_rule cfg c ru a1 a2 a3 a4 a5 a6 a7 a8 b1 b2 b3 b4 b5 r)
  | .return_access_control_rules c a1 a2 a3 a4 a5 a6 a7 a8 a9 a10 a11 r =>
      (cfg, return_access_control_rules cfg c a1 a2 a3 a4 a5 a6 a7 a8 a9 a10 a11 r)
  | .insert_access_control_rule c a1 a2 a3 a4 a5 a6 a7 a8 b1 b2 b3 b4 b5 r =>
      (cfg, insert_access_control_rule cfg c a1 a2 a3 a4 a5 a6 a7 a8 b1 b2 b3 b4 b5 r)
  | .watch_access_control_rules c a1 a2 a3 a4 a5 a6 a7 a8 a9 a10 a11 b1 b2 b3 b4 b5 b6 b7 b8 b9 b10 r =>
      (cfg, watch_access_control_rules cfg c a1 a2 a3 a4 a5 a6 a7 a8 a9 a10 a11 b1 b2 b3 b4 b5 b6 b7 b8 b9 b10 r)
  | .delete_event c e a1 a2 a3 a4 a5 a6 a7 a8 a9 r =>
      (cfg, delete_event cfg c e a1 a2 a3 a4 a5 a6 a7 a8 a9 r)
  | .insert_event c e a1 a2 a3 a4 a5 a6 a7 a8 a9 a10 a11 a12 a13 a14 a15 a16 r =>
      (cfg, insert_event cfg c e a1 a2 a3 a4 a5 a6 a7 a8 a9 a10 a11 a12 a13 a14 a15 a16 r)
  | .move_event c e a1 a2 a3 a4 a5 a6 a7 a8 a9 a10 r =>
      (cfg, move_event cfg c e a1 a2 a3 a4 a5 a6 a7 a8 a9 a10 r)
  | .return_events_from_calendar c a1 a2 a3 a4 a5 a6 a7 a8 a9 a10 a11 a12 a13 a14 a15 a16 a17 a18 a19 a20 a21 a22 a23 a24 a25 r =>
      (cfg, return_events_from_calendar cfg c a1 a2 a3 a4 a5 a6 a7 a8 a9 a10 a11 a12 a13 a14 a15 a16 a17 a18 a19 a20 a21 a22 a23 a24 a25 r)
  | .watch_events c a1 a2 a3 a4 a5 a6 a7 a8 a9 a10 a11 a12 a13 a14 a15 a16 a17 a18 a19 a20 a21 a22 a23 a24 a25 b1 b2 b3 b4 b5 b6 b7 b8 b9 b10 r =>
      (cfg, watch_events cfg c a1 a2 a3 a4 a5 a6 a7 a8 a9 a10 a11 a12 a13 a14 a15 a16 a17 a18 a19 a20 a21 a22 a23 a24 a25 b1 b2 b3 b4 b5 b6 b7 b8 b9 b10 r)
  | .get_calendar c a1 a2 a3 a4 a5 a6 a7 r =>
      (cfg, get_calendar cfg c a1 a2 a3 a4 a5 a6 a7 r)
  | .update_calendar c a1 a2 a3 a4 a5 a6 a7 b1 b2 b3 b4 b5 b6 b7 b8 r =>
      (cfg, update_calendar cfg c a1 a2 a3 a4 a5 a6 a7 b1 b2 b3 b4 b5 b6 b7 b8 r)
  | .delete_calendar c a1 a2 a3 a4 a5 a6 a7 r =>
      (cfg, delete_calendar cfg c a1 a2 a3 a4 a5 a6 a7 r)
  | .patch_calendar c a1 a2 a3 a4 a5 a6 a7 b1 b2 b3 b4 b5 b6 b7 b8 r =>
      (cfg, patch_calendar cfg c a1 a2 a3 a4 a5 a6 a7 b1 b2 b3 b4 b5 b6 b7 b8 r)
  | .clear_calendar c a1 a2 a3 a4 a5 a6 a7 r =>
      (cfg, clear_calendar cfg c a1 a2 a3 a4 a5 a6 a7 r)
  | .calendar a1 a2 a3 a4 a5 a6 a7 b1 b2 b3 b4 b5 b6 b7 b8 r =>
      (cfg, calendar cfg a1 a2 a3 a4 a5 a6 a7 b1 b2 b3 b4 b5 b6 b7 b8 r)
  | .get_calendar_list c a1 a2 a3 a4 a5 a6 a7 r =>
      (cfg, get_calendar_list cfg c a1 a2 a3 a4 a5 a6 a7 r)
  | .update_calendar_list c a1 a2 a3 a4 a5 a6 a7 a8 b1 b2 b3 b4 b5 b6 b7 b8 b9 b10 b11 b12 b13 b14 b15 b16 b17 b18 b19 r =>
      (cfg, update_calendar_list cfg c a1 a2 a3 a4 a5 a6 a7 a8 b1 b2 b3 b4 b5 b6 b7 b8 b9 b10 b11 b12 b13 b14 b15 b16 b17 b18 b19 r)
  | .remove_calendar_on_list c a1 a2 a3 a4 a5 a6 a7 r =>
      (cfg, remove_calendar_on_list cfg c a1 a2 a3 a4 a5 a6 a7 r)
  | .patch_calendar_list c a1 a2 a3 a4 a5 a6 a7 a8 b1 b2 b3 b4 b5 b6 b7 b8 b9 b10 b11 b12 b13 b14 b15 b16 b17 b18 b19 r =>
      (cfg, patch_calendar_list cfg c a1 a2 a3 a4 a5 a6 a7 a8 b1 b2 b3 b4 b5 b6 b7 b8 b9 b10 b11 b12 b13 b14 b15 b16 b17 b18 b19 r)
  | .insert_calendar_on_list a1 a2 a3 a4 a5 a6 a7 a8 b1 b2 b3 b4 b5 b6 b7 b8 b9 b10 b11 b12 b13 b14 b15 b16 b17 b18 b19 r =>
      (cfg, insert_calendar_on_list cfg a1 a2 a3 a4 a5 a6 a7 a8 b1 b2 b3 b4 b5 b6 b7 b8 b9 b10 b11 b12 b13 b14 b15 b16 b17 b18 b19 r)
  | .list_calendars u a1 a2 a3 a4 a5 a6 a7 a8 a9 a10 a11 a12 a13 r =>
      (cfg, list_calendars cfg u a1 a2 a3 a4 a5 a6 a7 a8 a9 a10 a11 a12 a13 r)
  | .watch_calendar_list a1 a2 a3 a4 a5 a6 a7 a8 a9 a10 a11 a12 a13 b1 b2 b3 b4 b5 b6 b7 b8 b9 b10 r =>
      (cfg, watch_calendar_list cfg a1 a2 a3 a4 a5 a6 a7 a8 a9 a10 a11 a12 a13 b1 b2 b3 b4 b5 b6 b7 b8 b9 b10 r)
  | .list_calendar_settings a1 a2 a3 a4 a5 a6 a7 a8 a9 a10 r =>
      (cfg, list_calendar_settings cfg a1 a2 a3 a4 a5 a6 a7 a8 a9 a10 r)
  | .get_calendar_settings s a1 a2 a3 a4 a5 a6 a7 r =>
      (cfg, get_calendar_settings cfg s a1 a2 a3 a4 a5 a6 a7 r)
  | .watch_calendar_settings a1 a2 a3 a4 a5 a6 a7 a8 a9 a10 b1 b2 b3 b4 b5 b6 b7 b8 b9 b10 r =>
      (cfg, watch_calendar_settings cfg a1 a2 a3 a4 a5 a6 a7 a8 a9 a10 b1 b2 b3 b4 b5 b6 b7 b8 b9 b10 r)
  | .stop_calendar_channel a1 a2 a3 a4 a5 a6 a7 b1 b2 b3 b4 b5 b6 b7 b8 b9 b10 r =>
      (cfg, stop_calendar_channel cfg a1 a2 a3 a4 a5 a6 a7 b1 b2 b3 b4 b5 b6 b7 b8 b9 b10 r)
  | .get_calendar_colors a1 a2 a3 a4 a5 a6 a7 r =>
      (cfg, get_calendar_colors cfg a1 a2 a3 a4 a5 a6 a7 r)
  | .query_free_busy a1 a2 a3 a4 a5 a6 a7 b1 b2 b3 b4 b5 b6 r =>
      (cfg, query_free_busy cfg a1 a2 a3 a4 a5 a6 a7 b1 b2 b3 b4 b5 b6 r)

/-- Run a sequence of method invocations, keeping only the final state. -/
def execSeq (cfg : AppCfg) : List Call → AppCfg
  | [] => cfg
  | c :: cs => execSeq (exec cfg c).1 cs

/-! ### Basic lemmas about the embedding -/

theorem mem_pyFilterNone {l : List (String × Option PyVal)} {k : String} {v : PyVal} :
    (k, v) ∈ pyFilterNone l ↔ (k, some v) ∈ l := by
  unfold pyFilterNone
  rw [List.mem_filterMap]
  constructor
  · rintro ⟨⟨k2, v2⟩, hmem, heq⟩
    cases v2 with
    | none => simp at heq
    | some w =>
      simp only [Option.map_some'] at heq
      rw [Option.some_inj] at heq
      obtain ⟨rfl, rfl⟩ := Prod.mk.injEq .. ▸ heq
      exact hmem
  · intro hm
    exact ⟨(k, some v), hm, rfl⟩

theorem except_bind_ok {α β : Type} {e : Except PyErr α} {f : α → Except PyErr β} {v : β}
    (h : e >>= f = .ok v) : ∃ a, e = .ok a ∧ f a = .ok v := by
  cases e with
  | error err => exact absurd h (by simp [Bind.bind, Except.bind])
  | ok a => exact ⟨a, rfl, by simpa [Bind.bind, Except.bind] using h⟩

theorem except_pure_ok {β : Type} {a v : β} (h : (pure a : Except PyErr β) = .ok v) :
    a = v := by
  simpa [pure, Except.pure] using h

theorem asDict_ok {v : PyVal} {fs : List (String × PyVal)} (h : asDict v = .ok fs) :
    v = .obj fs := by
  cases v <;> simp_all [asDict]

theorem asList_ok {v : PyVal} {xs : List PyVal} (h : asList v = .ok xs) :
    v = .arr xs := by
  cases v <;> simp_all [asList]

theorem runHttpJson_ok {req : HttpRequest} {resp : HttpResponse} {v : PyVal}
    (h : (runHttpJson req resp).2 = .ok v) : resp.jsonBody = some v := by
  unfold runHttpJson at h
  obtain ⟨u, -, h2⟩ := except_bind_ok h
  cases hj : resp.jsonBody with
  | none => simp [responseJson, hj] at h2
  | some w => simp [responseJson, hj] at h2; rw [h2]

theorem splitCh_ne_nil (sep : Char) (l : List Char) : splitCh sep l ≠ [] := by
  cases l with
  | nil => simp [splitCh]
  | cons c cs =>
    unfold splitCh
    split
    · simp
    · cases h : splitCh sep cs <;> simp

theorem splitCh_length (sep : Char) (l : List Char) :
    (splitCh sep l).length = l.count sep + 1 := by
  induction l with
  | nil => simp [splitCh]
  | cons c cs ih =>
    unfold splitCh
    by_cases hc : c = sep
    · simp [hc, List.count_cons, ih]
    · simp only [if_neg hc]
      cases h : splitCh sep cs with
      | nil => exact absurd h (splitCh_ne_nil sep cs)
      | cons g gs =>
        rw [h] at ih
        simp only [List.length_cons, List.count_cons] at ih ⊢
        have : (c == sep) = false := by simp [hc]
        simp [this]
        omega

theorem count_space_pyReplaceZ (l : List Char) :
    (pyReplaceZ l).count ' ' = l.count ' ' := by
  induction l with
  | nil => rfl
  | cons c cs ih =>
    unfold pyReplaceZ
    by_cases hc : c = 'Z'
    · subst hc
      simp [List.count_cons, ih]
    · simp [if_neg hc, List.count_cons, ih]

theorem count_space_zNormalize (s : String) :
    (zNormalize s).data.count ' ' = s.data.count ' ' := by
  unfold zNormalize
  split
  · show (pyReplaceZ s.data).count ' ' = s.data.count ' '
    exact count_space_pyReplaceZ s.data
  · rfl

theorem digitChar_beq_space (d : Nat) : (digitChar d == ' ') = false := by
  unfold digitChar
  split <;> decide

theorem count_space_strftimeOut (dt : PyDateTime) :
    (strftimeOut dt).data.count ' ' = 2 := by
  unfold strftimeOut twoDigL fourDigL
  show (_ ++ _ ++ _ ++ _ ++ _ ++ _ : List Char).count ' ' = 2
  split <;> split <;>
    simp [List.count_append, List.count_cons, digitChar_beq_space]

theorem pyIndex_err_of_ge {α : Type} (l : List α) (i : Nat) (h : l.length ≤ i) :
    pyIndex l i = .error .indexError := by
  unfold pyIndex
  rw [List.get?_eq_none.mpr h]

theorem pyIndex_ok_of_lt {α : Type} (l : List α) (i : Nat) (h : i < l.length) :
    ∃ x, pyIndex l i = .ok x := by
  unfold pyIndex
  cases hg : l.get? i with
  | none => exact absurd (List.get?_eq_none.mp hg) (by omega)
  | some x => exact ⟨x, rfl⟩

/-! ### The claims -/

/-- C1: every auto-generated operation with required path parameters
(`calendarId`, `ruleId`, `eventId`, `userId`, `setting`) raises, when such a
parameter is `None`, a `ValueError` whose message names the missing
parameter — the checks run in source order — and issues no HTTP request
(the trace is empty).  One conjunct per check, over the operations of
`app.py` in source order. -/
theorem C1_missing_required_raises_before_request :
    (∀ (ruleId : Option String) (a1 a2 a3 a4 a5 a6 a7 : Option PyVal) resp,
      get_access_control_rule googleCalendarApp none ruleId a1 a2 a3 a4 a5 a6 a7 resp
        = ([], .error (.valueError ("Missing required parameter '" ++ "calendarId" ++ "'"))))
    ∧ (∀ (cid : String) (a1 a2 a3 a4 a5 a6 a7 : Option PyVal) resp,
      get_access_control_rule googleCalendarApp (some cid) none a1 a2 a3 a4 a5 a6 a7 resp
        = ([], .error (.valueError ("Missing required parameter '" ++ "ruleId" ++ "'"))))
    ∧ (∀ (ruleId : Option String) (a1 a2 a3 a4 a5 a6 a7 a8 b1 b2 b3 b4 b5 : Option PyVal) resp,
      update_access_control_rule googleCalendarApp none ruleId a1 a2 a3 a4 a5 a6 a7 a8 b1 b2 b3 b4 b5 resp
        = ([], .error (.valueError ("Missing required parameter '" ++ "calendarId" ++ "'"))))
    ∧ (∀ (cid : String) (a1 a2 a3 a4 a5 a6 a7 a8 b1 b2 b3 b4 b5 : Option PyVal) resp,
      update_access_control_rule googleCalendarApp (some cid) none a1 a2 a3 a4 a5 a6 a7 a8 b1 b2 b3 b4 b5 resp
        = ([], .error (.valueError ("Missing required parameter '" ++ "ruleId" ++ "'"))))
    ∧ (∀ (ruleId : Option String) (a1 a2 a3 a4 a5 a6 a7 : Option PyVal) resp,
      delete_access_control_rule googleCalendarApp none ruleId a1 a2 a3 a4 a5 a6 a7 resp
        = ([], .error (.valueError ("Missing required parameter '" ++ "calendarId" ++ "'"))))
    ∧ (∀ (cid : String) (a1 a2 a3 a4 a5 a6 a7 : Option PyVal) resp,
      delete_access_control_rule googleCalendarApp (some cid) none a1 a2 a3 a4 a5 a6 a7 resp
        = ([], .error (.valueError ("Missing required parameter '" ++ "ruleId" ++ "'"))))
    ∧ (∀ (ruleId : Option String) (a1 a2 a3 a4 a5 a6 a7 a8 b1 b2 b3 b4 b5 : Option PyVal) resp,
      patch_access_control_rule googleCalendarApp none ruleId a1 a2 a3 a4 a5 a6 a7 a8 b1 b2 b3 b4 b5 resp
        = ([], .error (.valueError ("Missing required parameter '" ++ "calendarId" ++ "'"))))
    ∧ (∀ (cid : String) (a1 a2 a3 a4 a5 a6 a7 a8 b1 b2 b3 b4 b5 : Option PyVal) resp,
      patch_access_control_rule googleCalendarApp (some cid) none a1 a2 a3 a4 a5 a6 a7 a8 b1 b2 b3 b4 b5 resp
        = ([], .error (.valueError ("Missing required parameter '" ++ "ruleId" ++ "'"))))
    ∧ (∀ (a1 a2 a3 a4 a5 a6 a7 a8 a9 a10 a11 : Option PyVal) resp,
      return_access_control_rules googleCalendarApp none a1 a2 a3 a4 a5 a6 a7 a8 a9 a10 a11 resp
        = ([], .error (.valueError ("Missing required parameter '" ++ "calendarId" ++ "'"))))
    ∧ (∀ (a1 a2 a3 a4 a5 a6 a7 a8 b1 b2 b3 b4 b5 : Option PyVal) resp,
      insert_access_control_rule googleCalendarApp none a1 a2 a3 a4 a5 a6 a7 a8 b1 b2 b3 b4 b5 resp
        = ([], .error (.valueError ("Missing required parameter '" ++ "calendarId" ++ "'"))))
    ∧ (∀ (a1 a2 a3 a4 a5 a6 a7 a8 a9 a10 a11 b1 b2 b3 b4 b5 b6 b7 b8 b9 b10 : Option PyVal) resp,
      watch_access_control_rules googleCalendarApp none a1 a2 a3 a4 a5 a6 a7 a8 a9 a10 a11 b1 b2 b3 b4 b5 b6 b7 b8 b9 b10 resp
        = ([], .error (.valueError ("Missing required parameter '" ++ "calendarId" ++ "'"))))
    ∧ (∀ (eventId : Option String) (a1 a2 a3 a4 a5 a6 a7 a8 a9 : Option PyVal) resp,
      delete_event googleCalendarApp none eventId a1 a2 a3 a4 a5 a6 a7 a8 a9 resp
        = ([], .error (.valueError ("Missing required parameter '" ++ "calendarId" ++ "'"))))
    ∧ (∀ (cid : String) (a1 a2 a3 a4 a5 a6 a7 a8 a9 : Option PyVal) resp,
      delete_event googleCalendarApp (some cid) none a1 a2 a3 a4 a5 a6 a7 a8 a9 resp
        = ([], .error (.valueError ("Missing required parameter '" ++ "eventId" ++ "'"))))
    ∧ (∀ (eventId : Option String) (a1 a2 a3 a4 a5 a6 a7 a8 a9 a10 a11 a12 a13 a14 a15 a16 : Option PyVal) resp,
      insert_event googleCalendarApp none eventId a1 a2 a3 a4 a5 a6 a7 a8 a9 a10 a11 a12 a13 a14 a15 a16 resp
        = ([], .error (.valueError ("Missing required parameter '" ++ "calendarId" ++ "'"))))
    ∧ (∀ (cid : String) (a1 a2 a3 a4 a5 a6 a7 a8 a9 a10 a11 a12 a13 a14 a15 a16 : Option PyVal) resp,
      insert_event googleCalendarApp (some cid) none a1 a2 a3 a4 a5 a6 a7 a8 a9 a10 a11 a12 a13 a14 a15 a16 resp
        = ([], .error (.valueError ("Missing required parameter '" ++ "eventId" ++ "'"))))
    ∧ (∀ (eventId : Option String) (a1 a2 a3 a4 a5 a6 a7 a8 a9 a10 : Option PyVal) resp,
      move_event googleCalendarApp none eventId a1 a2 a3 a4 a5 a6 a7 a8 a9 a10 resp
        = ([], .error (.valueError ("Missing required parameter '" ++ "calendarId" ++ "'"))))
    ∧ (∀ (cid : String) (a1 a2 a3 a4 a5 a6 a7 a8 a9 a10 : Option PyVal) resp,
      move_event googleCalendarApp (some cid) none a1 a2 a3 a4 a5 a6 a7 a8 a9 a10 resp
        = ([], .error (.valueError ("Missing required parameter '" ++ "eventId" ++ "'"))))
    ∧ (∀ (a1 a2 a3 a4 a5 a6 a7 a8 a9 a10 a11 a12 a13 a14 a15 a16 a17 a18 a19 a20 a21 a22 a23 a24 a25 : Option PyVal) resp,
      return_events_from_calendar googleCalendarApp none a1 a2 a3 a4 a5 a6 a7 a8 a9 a10 a11 a12 a13 a14 a15 a16 a17 a18 a19 a20 a21 a22 a23 a24 a25 resp
        = ([], .error (.valueError ("Missing required parameter '" ++ "calendarId" ++ "'"))))
    ∧ (∀ (a1 a2 a3 a4 a5 a6 a7 a8 a9 a10 a11 a12 a13 a14 a15 a16 a17 a18 a19 a20 a21 a22 a23 a24 a25 b1 b2 b3 b4 b5 b6 b7 b8 b9 b10 : Option PyVal) resp,
      watch_events googleCalendarApp none a1 a2 a3 a4 a5 a6 a7 a8 a9 a10 a11 a12 a13 a14 a15 a16 a17 a18 a19 a20 a21 a22 a23 a24 a25 b1 b2 b3 b4 b5 b6 b7 b8 b9 b10 resp
        = ([], .error (.valueError ("Missing required parameter '" ++ "calendarId" ++ "'"))))
    ∧ (∀ (a1 a2 a3 a4 a5 a6 a7 : Option PyVal) resp,
      get_calendar googleCalendarApp none a1 a2 a3 a4 a5 a6 a7 resp
        = ([], .error (.valueError ("Missing required parameter '" ++ "calendarId" ++ "'"))))
    ∧ (∀ (a1 a2 a3 a4 a5 a6 a7 b1 b2 b3 b4 b5 b6 b7 b8 : Option PyVal) resp,
      update_calendar googleCalendarApp none a1 a2 a3 a4 a5 a6 a7 b1 b2 b3 b4 b5 b6 b7 b8 resp
        = ([], .error (.valueError ("Missing required parameter '" ++ "calendarId" ++ "'"))))
    ∧ (∀ (a1 a2 a3 a4 a5 a6 a7 : Option PyVal) resp,
      delete_calendar googleCalendarApp none a1 a2 a3 a4 a5 a6 a7 resp
        = ([], .error (.valueError ("Missing required parameter '" ++ "calendarId" ++ "'"))))
    ∧ (∀ (a1 a2 a3 a4 a5 a6 a7 b1 b2 b3 b4 b5 b6 b7 b8 : Option PyVal) resp,
      patch_calendar googleCalendarApp none a1 a2 a3 a4 a5 a6 a7 b1 b2 b3 b4 b5 b6 b7 b8 resp
        = ([], .error (.valueError ("Missing required parameter '" ++ "calendarId" ++ "'"))))
    ∧ (∀ (a1 a2 a3 a4 a5 a6 a7 : Option PyVal) resp,
      clear_calendar googleCalendarApp none a1 a2 a3 a4 a5 a6 a7 resp
        = ([], .error (.valueError ("Missing required parameter '" ++ "calendarId" ++ "'"))))
    ∧ (∀ (a1 a2 a3 a4 a5 a6 a7 : Option PyVal) resp,
      get_calendar_list googleCalendarApp none a1 a2 a3 a4 a5 a6 a7 resp
        = ([], .error (.valueError ("Missing required parameter '" ++ "calendarId" ++ "'"))))
    ∧ (∀ (a1 a2 a3 a4 a5 a6 a7 a8 b1 b2 b3 b4 b5 b6 b7 b8 b9 b10 b11 b12 b13 b14 b15 b16 b17 b18 b19 : Option PyVal) resp,
      update_calendar_list googleCalendarApp none a1 a2 a3 a4 a5 a6 a7 a8 b1 b2 b3 b4 b5 b6 b7 b8 b9 b10 b11 b12 b13 b14 b15 b16 b17 b18 b19 resp
        = ([], .error (.valueError ("Missing required parameter '" ++ "calendarId" ++ "'"))))
    ∧ (∀ (a1 a2 a3 a4 a5 a6 a7 : Option PyVal) resp,
      remove_calendar_on_list googleCalendarApp none a1 a2 a3 a4 a5 a6 a7 resp
        = ([], .error (.valueError ("Missing required parameter '" ++ "calendarId" ++ "'"))))
    ∧ (∀ (a1 a2 a3 a4 a5 a6 a7 a8 b1 b2 b3 b4 b5 b6 b7 b8 b9 b10 b11 b12 b13 b14 b15 b16 b17 b18 b19 : Option PyVal) resp,
      patch_calendar_list googleCalendarApp none a1 a2 a3 a4 a5 a6 a7 a8 b1 b2 b3 b4 b5 b6 b7 b8 b9 b10 b11 b12 b13 b14 b15 b16 b17 b18 b19 resp
        = ([], .error (.valueError ("Missing required parameter '" ++ "calendarId" ++ "'"))))
    ∧ (∀ (a1 a2 a3 a4 a5 a6 a7 a8 a9 a10 a11 a12 a13 : Option PyVal) resp,
      list_calendars googleCalendarApp none a1 a2 a3 a4 a5 a6 a7 a8 a9 a10 a11 a12 a13 resp
        = ([], .error (.valueError ("Missing required parameter '" ++ "userId" ++ "'"))))
    ∧ (∀ (a1 a2 a3 a4 a5 a6 a7 : Option PyVal) resp,
      get_calendar_settings googleCalendarApp none a1 a2 a3 a4 a5 a6 a7 resp
        = ([], .error (.valueError ("Missing required parameter '" ++ "setting" ++ "'")))) := by
  repeat' apply And.intro
  all_goals intros
  all_goals rfl

/-- C2 (at the failing input): `delete_calendar` on a successful
`204 No Content` response with an empty body does not return normally —
the unconditional `response.json()` raises a JSON decode error after the
single DELETE request was issued.  The method's own docstring documents the
success case as "No Content". -/
theorem C2_delete_calendar_raises_on_no_content :
    delete_calendar googleCalendarApp (some "primary") none none none none none none none
      { status := 204, jsonBody := none }
      = ([{ verb := .delete,
            url := "https://www.googleapis.com/calendar/v3/calendars/primary",
            queryParams := [], body := none }],
         .error .jsonDecodeError) := rfl

/-- C5 counterexample: the input `"TZ"` contains `T`, is neither empty nor
`"Unknown"`, and does not parse as an ISO datetime (neither after the
claim's trailing-`Z` replacement nor after the code's normalization), so
the claim places it in the fourth case and predicts the original input
`"TZ"` back; but `_format_datetime` returns the normalized string
`"T+00:00"`, because the source reassigns `dt_string` before parsing and
returns the reassigned value on failure. -/
theorem C5_counterexample :
    "TZ" ≠ "" ∧ "TZ" ≠ "Unknown" ∧ containsTChar "TZ" = true
    ∧ isoParse (stripTrailingZOnce "TZ") = none
    ∧ isoParse (zNormalize "TZ") = none
    ∧ format_datetime "TZ" = "T+00:00"
    ∧ format_datetime "TZ" ≠ "TZ" :=
  ⟨by decide, by decide, by decide, by decide, by decide, by decide, by decide⟩

/-- C5 (amended): `_format_datetime` is a total function on strings with
exactly four cases — for input empty or `"Unknown"` it returns `"Unknown"`;
for input without `T` it returns the input with `" (All day)"` appended;
for input with `T`, let `s2` be the input with every `Z` replaced by
`"+00:00"` when the input ends with `Z` (else the input unchanged): if `s2`
parses as an ISO datetime the result is that datetime rendered as
`"%Y-%m-%d %I:%M %p"`, and if `s2` does not parse the result is `s2` (the
normalized string, not necessarily the original input). -/
theorem C5_format_datetime_four_cases (s : String) :
    ((s = "" ∨ s = "Unknown") → format_datetime s = "Unknown")
    ∧ (s ≠ "" → s ≠ "Unknown" → containsTChar s = false →
        format_datetime s = s ++ " (All day)")
    ∧ (s ≠ "" → s ≠ "Unknown" → containsTChar s = true → ∀ dt,
        isoParse (zNormalize s) = some dt → format_datetime s = strftimeOut dt)
    ∧ (s ≠ "" → s ≠ "Unknown" → containsTChar s = true →
        isoParse (zNormalize s) = none → format_datetime s = zNormalize s) := by
  refine ⟨?_, ?_, ?_, ?_⟩
  · rintro (rfl | rfl) <;> simp [format_datetime]
  · intro h1 h2 h3
    simp [format_datetime, h1, h2, h3]
  · intro h1 h2 h3 dt hdt
    simp [format_datetime, h1, h2, h3, hdt]
  · intro h1 h2 h3 hdt
    simp [format_datetime, h1, h2, h3, hdt]

/-- C5 witness: the third case applied at `"2023-06-01T10:00:00Z"`, which
parses after normalization and renders as `"2023-06-01 10:00 AM"`. -/
theorem C5_format_datetime_four_cases_witness :
    format_datetime "2023-06-01T10:00:00Z" = strftimeOut ⟨2023, 6, 1, 10, 0⟩ :=
  (C5_format_datetime_four_cases "2023-06-01T10:00:00Z").2.2.1
    (by decide) (by decide) (by decide) ⟨2023, 6, 1, 10, 0⟩ (by decide)

/-- C8: no operation mutates the adapter's state: running any of the 36
tools leaves the instance configuration unchanged; after any sequence of
prior calls the two URL fields still hold the constructor's values, and the
trace and outcome of a call do not depend on which calls preceded it. -/
theorem C8_operations_are_stateless :
    (∀ (cfg : AppCfg) (c : Call), (exec cfg c).1 = cfg)
    ∧ (∀ (prior : List Call) (c : Call),
        exec (execSeq googleCalendarApp prior) c = exec googleCalendarApp c)
    ∧ (∀ prior : List Call,
        (execSeq googleCalendarApp prior).base_url
            = "https://www.googleapis.com/calendar/v3"
          ∧ (execSeq googleCalendarApp prior).base_api_url
            = "https://www.googleapis.com/calendar/v3/calendars/primary") := by
  have h1 : ∀ (cfg : AppCfg) (c : Call), (exec cfg c).1 = cfg := by
    intro cfg c
    cases c <;> rfl
  have h2 : ∀ (prior : List Call) (cfg : AppCfg), execSeq cfg prior = cfg := by
    intro prior
    induction prior with
    | nil => intro cfg; rfl
    | cons c cs ih => intro cfg; show execSeq (exec cfg c).1 cs = cfg; rw [h1, ih]
  exact ⟨h1, fun prior c => by rw [h2], fun prior => by rw [h2]; exact ⟨rfl, rfl⟩⟩

/-- C9: `insert_event`, despite its name, issues a single HTTP GET to
`{base_url}/calendars/{calendarId}/events/{eventId}/instances` with query
parameters only and no request body — it never sends a POST. -/
theorem C9_insert_event_is_instances_get (cid eid : String)
    (a1 a2 a3 a4 a5 a6 a7 a8 a9 a10 a11 a12 a13 a14 a15 a16 : Option PyVal)
    (resp : HttpResponse) :
    (insert_event googleCalendarApp (some cid) (some eid) a1 a2 a3 a4 a5 a6 a7
        a8 a9 a10 a11 a12 a13 a14 a15 a16 resp).1.map
        (fun r => (r.verb, r.url, r.body))
      = [(HttpVerb.get,
          "https://www.googleapis.com/calendar/v3/calendars/" ++ cid
            ++ "/events/" ++ eid ++ "/instances", none)] := rfl

/-- C6: for every operation and every choice of arguments that passes the
required-parameter checks, every HTTP request the invocation issues has a
URL beginning with `https://www.googleapis.com/calendar/v3` (one conjunct
per tool `list_tools` exposes, required path parameters instantiated with
arbitrary strings). -/
theorem C6_urls_on_api_base :
    (∀ (e : String) (ma : Option Int) (tz : Option String) resp,
      ((get_event googleCalendarApp e ma tz resp).1.all onApiBase) = true)
    ∧ (∀ (t : PyDate) (d : Int) (mr : Option Int) (tz : Option String) resp,
      ((get_today_events googleCalendarApp t d mr tz resp).1.all onApiBase) = true)
    ∧ (∀ (no : String) (mr : Int) (tmi tma q : Option String) (ob : String)
        (se : Bool) (tz pt : Option String) resp,
      ((list_events googleCalendarApp no mr tmi tma q ob se tz pt resp).1.all onApiBase) = true)
    ∧ (∀ (t su : String) resp,
      ((quick_add_event googleCalendarApp t su resp).1.all onApiBase) = true)
    ∧ (∀ (e : String) (mr : Int) (tmi tma tz : Option String) (sd : Bool)
        (pt : Option String) resp,
      ((get_event_instances googleCalendarApp e mr tmi tma tz sd pt resp).1.all onApiBase) = true)
    ∧ (∀ (c r : String) (a1 a2 a3 a4 a5 a6 a7 : Option PyVal) resp,
      ((get_access_control_rule googleCalendarApp (some c) (some r) a1 a2 a3 a4 a5 a6 a7 resp).1.all onApiBase) = true)
    ∧ (∀ (c r : String) (a1 a2 a3 a4 a5 a6 a7 a8 b1 b2 b3 b4 b5 : Option PyVal) resp,
      ((update_access_control_rule googleCalendarApp (some c) (some r) a1 a2 a3 a4 a5 a6 a7 a8 b1 b2 b3 b4 b5 resp).1.all onApiBase) = true)
    ∧ (∀ (c r : String) (a1 a2 a3 a4 a5 a6 a7 : Option PyVal) resp,
      ((delete_access_control_rule googleCalendarApp (some c) (some r) a1 a2 a3 a4 a5 a6 a7 resp).1.all onApiBase) = true)
    ∧ (∀ (c r : String) (a1 a2 a3 a4 a5 a6 a7 a8 b1 b2 b3 b4 b5 : Option PyVal) resp,
      ((patch_access_control_rule googleCalendarApp (some c) (some r) a1 a2 a3 a4 a5 a6 a7 a8 b1 b2 b3 b4 b5 resp).1.all onApiBase) = true)
    ∧ (∀ (c : String) (a1 a2 a3 a4 a5 a6 a7 a8 a9 a10 a11 : Option PyVal) resp,
      ((return_access_control_rules googleCalendarApp (some c) a1 a2 a3 a4 a5 a6 a7 a8 a9 a10 a11 resp).1.all onApiBase) = true)
    ∧ (∀ (c : String) (a1 a2 a3 a4 a5 a6 a7 a8 b1 b2 b3 b4 b5 : Option PyVal) resp,
      ((insert_access_control_rule googleCalendarApp (some c) a1 a2 a3 a4 a5 a6 a7 a8 b1 b2 b3 b4 b5 resp).1.all onApiBase) = true)
    ∧ (∀ (c : String) (a1 a2 a3 a4 a5 a6 a7 a8 a9 a10 a11 b1 b2 b3 b4 b5 b6 b7 b8 b9 b10 : Option PyVal) resp,
      ((watch_access_control_rules googleCalendarApp (some c) a1 a2 a3 a4 a5 a6 a7 a8 a9 a10 a11 b1 b2 b3 b4 b5 b6 b7 b8 b9 b10 resp).1.all onApiBase) = true)
    ∧ (∀ (c e : String) (a1 a2 a3 a4 a5 a6 a7 a8 a9 : Option PyVal) resp,
      ((delete_event googleCalendarApp (some c) (some e) a1 a2 a3 a4 a5 a6 a7 a8 a9 resp).1.all onApiBase) = true)
    ∧ (∀ (c e : String) (a1 a2 a3 a4 a5 a6 a7 a8 a9 a10 a11 a12 a13 a14 a15 a16 : Option PyVal) resp,
      ((insert_event googleCalendarApp (some c) (some e) a1 a2 a3 a4 a5 a6 a7 a8 a9 a10 a11 a12 a13 a14 a15 a16 resp).1.all onApiBase) = true)
    ∧ (∀ (c e : String) (a1 a2 a3 a4 a5 a6 a7 a8 a9 a10 : Option PyVal) resp,
      ((move_event googleCalendarApp (some c) (some e) a1 a2 a3 a4 a5 a6 a7 a8 a9 a10 resp).1.all onApiBase) = true)
    ∧ (∀ (c : String) (a1 a2 a3 a4 a5 a6 a7 a8 a9 a10 a11 a12 a13 a14 a15 a16 a17 a18 a19 a20 a21 a22 a23 a24 a25 : Option PyVal) resp,
      ((return_events_from_calendar googleCalendarApp (some c) a1 a2 a3 a4 a5 a6 a7 a8 a9 a10 a11 a12 a13 a14 a15 a16 a17 a18 a19 a20 a21 a22 a23 a24 a25 resp).1.all onApiBase) = true)
    ∧ (∀ (c : String) (a1 a2 a3 a4 a5 a6 a7 a8 a9 a10 a11 a12 a13 a14 a15 a16 a17 a18 a19 a20 a21 a22 a23 a24 a25 b1 b2 b3 b4 b5 b6 b7 b8 b9 b10 : Option PyVal) resp,
      ((watch_events googleCalendarApp (some c) a1 a2 a3 a4 a5 a6 a7 a8 a9 a10 a11 a12 a13 a14 a15 a16 a17 a18 a19 a20 a21 a22 a23 a24 a25 b1 b2 b3 b4 b5 b6 b7 b8 b9 b10 resp).1.all onApiBase) = true)
    ∧ (∀ (c : String) (a1 a2 a3 a4 a5 a6 a7 : Option PyVal) resp,
      ((get_calendar googleCalendarApp (some c) a1 a2 a3 a4 a5 a6 a7 resp).1.all onApiBase) = true)
    ∧ (∀ (c : String) (a1 a2 a3 a4 a5 a6 a7 b1 b2 b3 b4 b5 b6 b7 b8 : Option PyVal) resp,
      ((update_calendar googleCalendarApp (some c) a1 a2 a3 a4 a5 a6 a7 b1 b2 b3 b4 b5 b6 b7 b8 resp).1.all onApiBase) = true)
    ∧ (∀ (c : String) (a1 a2 a3 a4 a5 a6 a7 : Option PyVal) resp,
      ((delete_calendar googleCalendarApp (some c) a1 a2 a3 a4 a5 a6 a7 resp).1.all onApiBase) = true)
    ∧ (∀ (c : String) (a1 a2 a3 a4 a5 a6 a7 b1 b2 b3 b4 b5 b6 b7 b8 : Option PyVal) resp,
      ((patch_calendar googleCalendarApp (some c) a1 a2 a3 a4 a5 a6 a7 b1 b2 b3 b4 b5 b6 b7 b8 resp).1.all onApiBase) = true)
    ∧ (∀ (c : String) (a1 a2 a3 a4 a5 a6 a7 : Option PyVal) resp,
      ((clear_calendar googleCalendarApp (some c) a1 a2 a3 a4 a5 a6 a7 resp).1.all onApiBase) = true)
    ∧ (∀ (a1 a2 a3 a4 a5 a6 a7 b1 b2 b3 b4 b5 b6 b7 b8 : Option PyVal) resp,
      ((calendar googleCalendarApp a1 a2 a3 a4 a5 a6 a7 b1 b2 b3 b4 b5 b6 b7 b8 resp).1.all onApiBase) = true)
    ∧ (∀ (c : String) (a1 a2 a3 a4 a5 a6 a7 : Option PyVal) resp,
      ((get_calendar_list googleCalendarApp (some c) a1 a2 a3 a4 a5 a6 a7 resp).1.all onApiBase) = true)
    ∧ (∀ (c : String) (a1 a2 a3 a4 a5 a6 a7 a8 b1 b2 b3 b4 b5 b6 b7 b8 b9 b10 b11 b12 b13 b14 b15 b16 b17 b18 b19 : Option PyVal) resp,
      ((update_calendar_list googleCalendarApp (some c) a1 a2 a3 a4 a5 a6 a7 a8 b1 b2 b3 b4 b5 b6 b7 b8 b9 b10 b11 b12 b13 b14 b15 b16 b17 b18 b19 resp).1.all onApiBase) = true)
    ∧ (∀ (c : String) (a1 a2 a3 a4 a5 a6 a7 : Option PyVal) resp,
      ((remove_calendar_on_list googleCalendarApp (some c) a1 a2 a3 a4 a5 a6 a7 resp).1.all onApiBase) = true)
    ∧ (∀ (c : String) (a1 a2 a3 a4 a5 a6 a7 a8 b1 b2 b3 b4 b5 b6 b7 b8 b9 b10 b11 b12 b13 b14 b15 b16 b17 b18 b19 : Option PyVal) resp,
      ((patch_calendar_list googleCalendarApp (some c) a1 a2 a3 a4 a5 a6 a7 a8 b1 b2 b3 b4 b5 b6 b7 b8 b9 b10 b11 b12 b13 b14 b15 b16 b17 b18 b19 resp).1.all onApiBase) = true)
    ∧ (∀ (a1 a2 a3 a4 a5 a6 a7 a8 b1 b2 b3 b4 b5 b6 b7 b8 b9 b10 b11 b12 b13 b14 b15 b16 b17 b18 b19 : Option PyVal) resp,
      ((insert_calendar_on_list googleCalendarApp a1 a2 a3 a4 a5 a6 a7 a8 b1 b2 b3 b4 b5 b6 b7 b8 b9 b10 b11 b12 b13 b14 b15 b16 b17 b18 b19 resp).1.all onApiBase) = true)
    ∧ (∀ (u : String) (a1 a2 a3 a4 a5 a6 a7 a8 a9 a10 a11 a12 a13 : Option PyVal) resp,
      ((list_calendars googleCalendarApp (some u) a1 a2 a3 a4 a5 a6 a7 a8 a9 a10 a11 a12 a13 resp).1.all onApiBase) = true)
    ∧ (∀ (a1 a2 a3 a4 a5 a6 a7 a8 a9 a10 a11 a12 a13 b1 b2 b3 b4 b5 b6 b7 b8 b9 b10 : Option PyVal) resp,
      ((watch_calendar_list googleCalendarApp a1 a2 a3 a4 a5 a6 a7 a8 a9 a10 a11 a12 a13 b1 b2 b3 b4 b5 b6 b7 b8 b9 b10 resp).1.all onApiBase) = true)
    ∧ (∀ (a1 a2 a3 a4 a5 a6 a7 a8 a9 a10 : Option PyVal) resp,
      ((list_calendar_settings googleCalendarApp a1 a2 a3 a4 a5 a6 a7 a8 a9 a10 resp).1.all onApiBase) = true)
    ∧ (∀ (st : String) (a1 a2 a3 a4 a5 a6 a7 : Option PyVal) resp,
      ((get_calendar_settings googleCalendarApp (some st) a1 a2 a3 a4 a5 a6 a7 resp).1.all onApiBase) = true)
    ∧ (∀ (a1 a2 a3 a4 a5 a6 a7 a8 a9 a10 b1 b2 b3 b4 b5 b6 b7 b8 b9 b10 : Option PyVal) resp,
      ((watch_calendar_settings googleCalendarApp a1 a2 a3 a4 a5 a6 a7 a8 a9 a10 b1 b2 b3 b4 b5 b6 b7 b8 b9 b10 resp).1.all onApiBase) = true)
    ∧ (∀ (a1 a2 a3 a4 a5 a6 a7 b1 b2 b3 b4 b5 b6 b7 b8 b9 b10 : Option PyVal) resp,
      ((stop_calendar_channel googleCalendarApp a1 a2 a3 a4 a5 a6 a7 b1 b2 b3 b4 b5 b6 b7 b8 b9 b10 resp).1.all onApiBase) = true)
    ∧ (∀ (a1 a2 a3 a4 a5 a6 a7 : Option PyVal) resp,
      ((get_calendar_colors googleCalendarApp a1 a2 a3 a4 a5 a6 a7 resp).1.all onApiBase) = true)
    ∧ (∀ (a1 a2 a3 a4 a5 a6 a7 b1 b2 b3 b4 b5 b6 : Option PyVal) resp,
      ((query_free_busy googleCalendarApp a1 a2 a3 a4 a5 a6 a7 b1 b2 b3 b4 b5 b6 resp).1.all onApiBase) = true) := by
  repeat' apply And.intro
  all_goals intros
  all_goals rfl

/-- C7: every tool invocation that passes its required-parameter checks
issues exactly one HTTP request, and when it returns a value that value is
a formatted text string for the five hand-written operations (the first
five conjuncts) and exactly the parsed JSON body of the response for every
auto-generated operation (the remaining conjuncts).  `list_tools` itself is
the registry that enumerates these 36 tools, not an operation. -/
theorem C7_one_request_and_result_shape :
    (∀ (e : String) (ma : Option Int) (tz : Option String) resp,
      ((get_event googleCalendarApp e ma tz resp).1.length = 1)
      ∧ ∀ v, (get_event googleCalendarApp e ma tz resp).2 = .ok v → ∃ s, v = PyVal.str s)
    ∧ (∀ (t : PyDate) (d : Int) (mr : Option Int) (tz : Option String) resp,
      ((get_today_events googleCalendarApp t d mr tz resp).1.length = 1)
      ∧ ∀ v, (get_today_events googleCalendarApp t d mr tz resp).2 = .ok v → ∃ s, v = PyVal.str s)
    ∧ (∀ (no : String) (mr : Int) (tmi tma q : Option String) (ob : String)
        (se : Bool) (tz pt : Option String) resp,
      ((list_events googleCalendarApp no mr tmi tma q ob se tz pt resp).1.length = 1)
      ∧ ∀ v, (list_events googleCalendarApp no mr tmi tma q ob se tz pt resp).2 = .ok v → ∃ s, v = PyVal.str s)
    ∧ (∀ (t su : String) resp,
      ((quick_add_event googleCalendarApp t su resp).1.length = 1)
      ∧ ∀ v, (quick_add_event googleCalendarApp t su resp).2 = .ok v → ∃ s, v = PyVal.str s)
    ∧ (∀ (e : String) (mr : Int) (tmi tma tz : Option String) (sd : Bool)
        (pt : Option String) resp,
      ((get_event_instances googleCalendarApp e mr tmi tma tz sd pt resp).1.length = 1)
      ∧ ∀ v, (get_event_instances googleCalendarApp e mr tmi tma tz sd pt resp).2 = .ok v → ∃ s, v = PyVal.str s)
    ∧ (∀ (c r : String) (a1 a2 a3 a4 a5 a6 a7 : Option PyVal) resp,
      ((get_access_control_rule googleCalendarApp (some c) (some r) a1 a2 a3 a4 a5 a6 a7 resp).1.length = 1)
      ∧ ∀ v, (get_access_control_rule googleCalendarApp (some c) (some r) a1 a2 a3 a4 a5 a6 a7 resp).2 = .ok v → resp.jsonBody = some v)
    ∧ (∀ (c r : String) (a1 a2 a3 a4 a5 a6 a7 a8 b1 b2 b3 b4 b5 : Option PyVal) resp,
      ((update_access_control_rule googleCalendarApp (some c) (some r) a1 a2 a3 a4 a5 a6 a7 a8 b1 b2 b3 b4 b5 resp).1.length = 1)
      ∧ ∀ v, (update_access_control_rule googleCalendarApp (some c) (some r) a1 a2 a3 a4 a5 a6 a7 a8 b1 b2 b3 b4 b5 resp).2 = .ok v → resp.jsonBody = some v)
    ∧ (∀ (c r : String) (a1 a2 a3 a4 a5 a6 a7 : Option PyVal) resp,
      ((delete_access_control_rule googleCalendarApp (some c) (some r) a1 a2 a3 a4 a5 a6 a7 resp).1.length = 1)
      ∧ ∀ v, (delete_access_control_rule googleCalendarApp (some c) (some r) a1 a2 a3 a4 a5 a6 a7 resp).2 = .ok v → resp.jsonBody = some v)
    ∧ (∀ (c r : String) (a1 a2 a3 a4 a5 a6 a7 a8 b1 b2 b3 b4 b5 : Option PyVal) resp,
      ((patch_access_control_rule googleCalendarApp (some c) (some r) a1 a2 a3 a4 a5 a6 a7 a8 b1 b2 b3 b4 b5 resp).1.length = 1)
      ∧ ∀ v, (patch_access_control_rule googleCalendarApp (some c) (some r) a1 a2 a3 a4 a5 a6 a7 a8 b1 b2 b3 b4 b5 resp).2 = .ok v → resp.jsonBody = some v)
    ∧ (∀ (c : String) (a1 a2 a3 a4 a5 a6 a7 a8 a9 a10 a11 : Option PyVal) resp,
      ((return_access_control_rules googleCalendarApp (some c) a1 a2 a3 a4 a5 a6 a7 a8 a9 a10 a11 resp).1.length = 1)
      ∧ ∀ v, (return_access_control_rules googleCalendarApp (some c) a1 a2 a3 a4 a5 a6 a7 a8 a9 a10 a11 resp).2 = .ok v → resp.jsonBody = some v)
    ∧ (∀ (c : String) (a1 a2 a3 a4 a5 a6 a7 a8 b1 b2 b3 b4 b5 : Option PyVal) resp,
      ((insert_access_control_rule googleCalendarApp (some c) a1 a2 a3 a4 a5 a6 a7 a8 b1 b2 b3 b4 b5 resp).1.length = 1)
      ∧ ∀ v, (insert_access_control_rule googleCalendarApp (some c) a1 a2 a3 a4 a5 a6 a7 a8 b1 b2 b3 b4 b5 resp).2 = .ok v → resp.jsonBody = some v)
    ∧ (∀ (c : String) (a1 a2 a3 a4 a5 a6 a7 a8 a9 a10 a11 b1 b2 b3 b4 b5 b6 b7 b8 b9 b10 : Option PyVal) resp,
      ((watch_access_control_rules googleCalendarApp (some c) a1 a2 a3 a4 a5 a6 a7 a8 a9 a10 a11 b1 b2 b3 b4 b5 b6 b7 b8 b9 b10 resp).1.length = 1)
      ∧ ∀ v, (watch_access_control_rules googleCalendarApp (some c) a1 a2 a3 a4 a5 a6 a7 a8 a9 a10 a11 b1 b2 b3 b4 b5 b6 b7 b8 b9 b10 resp).2 = .ok v → resp.jsonBody = some v)
    ∧ (∀ (c e : String) (a1 a2 a3 a4 a5 a6 a7 a8 a9 : Option PyVal) resp,
      ((delete_event googleCalendarApp (some c) (some e) a1 a2 a3 a4 a5 a6 a7 a8 a9 resp).1.length = 1)
      ∧ ∀ v, (delete_event googleCalendarApp (some c) (some e) a1 a2 a3 a4 a5 a6 a7 a8 a9 resp).2 = .ok v → resp.jsonBody = some v)
    ∧ (∀ (c e : String) (a1 a2 a3 a4 a5 a6 a7 a8 a9 a10 a11 a12 a13 a14 a15 a16 : Option PyVal) resp,
      ((insert_event googleCalendarApp (some c) (some e) a1 a2 a3 a4 a5 a6 a7 a8 a9 a10 a11 a12 a13 a14 a15 a16 resp).1.length = 1)
      ∧ ∀ v, (insert_event googleCalendarApp (some c) (some e) a1 a2 a3 a4 a5 a6 a7 a8 a9 a10 a11 a12 a13 a14 a15 a16 resp).2 = .ok v → resp.jsonBody = some v)
    ∧ (∀ (c e : String) (a1 a2 a3 a4 a5 a6 a7 a8 a9 a10 : Option PyVal) resp,
      ((move_event googleCalendarApp (some c) (some e) a1 a2 a3 a4 a5 a6 a7 a8 a9 a10 resp).1.length = 1)
      ∧ ∀ v, (move_event googleCalendarApp (some c) (some e) a1 a2 a3 a4 a5 a6 a7 a8 a9 a10 resp).2 = .ok v → resp.jsonBody = some v)
    ∧ (∀ (c : String) (a1 a2 a3 a4 a5 a6 a7 a8 a9 a10 a11 a12 a13 a14 a15 a16 a17 a18 a19 a20 a21 a22 a23 a24 a25 : Option PyVal) resp,
      ((return_events_from_calendar googleCalendarApp (some c) a1 a2 a3 a4 a5 a6 a7 a8 a9 a10 a11 a12 a13 a14 a15 a16 a17 a18 a19 a20 a21 a22 a23 a24 a25 resp).1.length = 1)
      ∧ ∀ v, (return_events_from_calendar googleCalendarApp (some c) a1 a2 a3 a4 a5 a6 a7 a8 a9 a10 a11 a12 a13 a14 a15 a16 a17 a18 a19 a20 a21 a22 a23 a24 a25 resp).2 = .ok v → resp.jsonBody = some v)
    ∧ (∀ (c : String) (a1 a2 a3 a4 a5 a6 a7 a8 a9 a10 a11 a12 a13 a14 a15 a16 a17 a18 a19 a20 a21 a22 a23 a24 a25 b1 b2 b3 b4 b5 b6 b7 b8 b9 b10 : Option PyVal) resp,
      ((watch_events googleCalendarApp (some c) a1 a2 a3 a4 a5 a6 a7 a8 a9 a10 a11 a12 a13 a14 a15 a16 a17 a18 a19 a20 a21 a22 a23 a24 a25 b1 b2 b3 b4 b5 b6 b7 b8 b9 b10 resp).1.length = 1)
      ∧ ∀ v, (watch_events googleCalendarApp (some c) a1 a2 a3 a4 a5 a6 a7 a8 a9 a10 a11 a12 a13 a14 a15 a16 a17 a18 a19 a20 a21 a22 a23 a24 a25 b1 b2 b3 b4 b5 b6 b7 b8 b9 b10 resp).2 = .ok v → resp.jsonBody = some v)
    ∧ (∀ (c : String) (a1 a2 a3 a4 a5 a6 a7 : Option PyVal) resp,
      ((get_calendar googleCalendarApp (some c) a1 a2 a3 a4 a5 a6 a7 resp).1.length = 1)
      ∧ ∀ v, (get_calendar googleCalendarApp (some c) a1 a2 a3 a4 a5 a6 a7 resp).2 = .ok v → resp.jsonBody = some v)
    ∧ (∀ (c : String) (a1 a2 a3 a4 a5 a6 a7 b1 b2 b3 b4 b5 b6 b7 b8 : Option PyVal) resp,
      ((update_calendar googleCalendarApp (some c) a1 a2 a3 a4 a5 a6 a7 b1 b2 b3 b4 b5 b6 b7 b8 resp).1.length = 1)
      ∧ ∀ v, (update_calendar googleCalendarApp (some c) a1 a2 a3 a4 a5 a6 a7 b1 b2 b3 b4 b5 b6 b7 b8 resp).2 = .ok v → resp.jsonBody = some v)
    ∧ (∀ (c : String) (a1 a2 a3 a4 a5 a6 a7 : Option PyVal) resp,
      ((delete_calendar googleCalendarApp (some c) a1 a2 a3 a4 a5 a6 a7 resp).1.length = 1)
      ∧ ∀ v, (delete_calendar googleCalendarApp (some c) a1 a2 a3 a4 a5 a6 a7 resp).2 = .ok v → resp.jsonBody = some v)
    ∧ (∀ (c : String) (a1 a2 a3 a4 a5 a6 a7 b1 b2 b3 b4 b5 b6 b7 b8 : Option PyVal) resp,
      ((patch_calendar googleCalendarApp (some c) a1 a2 a3 a4 a5 a6 a7 b1 b2 b3 b4 b5 b6 b7 b8 resp).1.length = 1)
      ∧ ∀ v, (patch_calendar googleCalendarApp (some c) a1 a2 a3 a4 a5 a6 a7 b1 b2 b3 b4 b5 b6 b7 b8 resp).2 = .ok v → resp.jsonBody = some v)
    ∧ (∀ (c : String) (a1 a2 a3 a4 a5 a6 a7 : Option PyVal) resp,
      ((clear_calendar googleCalendarApp (some c) a1 a2 a3 a4 a5 a6 a7 resp).1.length = 1)
      ∧ ∀ v, (clear_calendar googleCalendarApp (some c) a1 a2 a3 a4 a5 a6 a7 resp).2 = .ok v → resp.jsonBody = some v)
    ∧ (∀ (a1 a2 a3 a4 a5 a6 a7 b1 b2 b3 b4 b5 b6 b7 b8 : Option PyVal) resp,
      ((calendar googleCalendarApp a1 a2 a3 a4 a5 a6 a7 b1 b2 b3 b4 b5 b6 b7 b8 resp).1.length = 1)
      ∧ ∀ v, (calendar googleCalendarApp a1 a2 a3 a4 a5 a6 a7 b1 b2 b3 b4 b5 b6 b7 b8 resp).2 = .ok v → resp.jsonBody = some v)
    ∧ (∀ (c : String) (a1 a2 a3 a4 a5 a6 a7 : Option PyVal) resp,
      ((get_calendar_list googleCalendarApp (some c) a1 a2 a3 a4 a5 a6 a7 resp).1.length = 1)
      ∧ ∀ v, (get_calendar_list googleCalendarApp (some c) a1 a2 a3 a4 a5 a6 a7 resp).2 = .ok v → resp.jsonBody = some v)
    ∧ (∀ (c : String) (a1 a2 a3 a4 a5 a6 a7 a8 b1 b2 b3 b4 b5 b6 b7 b8 b9 b10 b11 b12 b13 b14 b15 b16 b17 b18 b19 : Option PyVal) resp,
      ((update_calendar_list googleCalendarApp (some c) a1 a2 a3 a4 a5 a6 a7 a8 b1 b2 b3 b4 b5 b6 b7 b8 b9 b10 b11 b12 b13 b14 b15 b16 b17 b18 b19 resp).1.length = 1)
      ∧ ∀ v, (update_calendar_list googleCalendarApp (some c) a1 a2 a3 a4 a5 a6 a7 a8 b1 b2 b3 b4 b5 b6 b7 b8 b9 b10 b11 b12 b13 b14 b15 b16 b17 b18 b19 resp).2 = .ok v → resp.jsonBody = some v)
    ∧ (∀ (c : String) (a1 a2 a3 a4 a5 a6 a7 : Option PyVal) resp,
      ((remove_calendar_on_list googleCalendarApp (some c) a1 a2 a3 a4 a5 a6 a7 resp).1.length = 1)
      ∧ ∀ v, (remove_calendar_on_list googleCalendarApp (some c) a1 a2 a3 a4 a5 a6 a7 resp).2 = .ok v → resp.jsonBody = some v)
    ∧ (∀ (c : String) (a1 a2 a3 a4 a5 a6 a7 a8 b1 b2 b3 b4 b5 b6 b7 b8 b9 b10 b11 b12 b13 b14 b15 b16 b17 b18 b19 : Option PyVal) resp,
      ((patch_calendar_list googleCalendarApp (some c) a1 a2 a3 a4 a5 a6 a7 a8 b1 b2 b3 b4 b5 b6 b7 b8 b9 b10 b11 b12 b13 b14 b15 b16 b17 b18 b19 resp).1.length = 1)
      ∧ ∀ v, (patch_calendar_list googleCalendarApp (some c) a1 a2 a3 a4 a5 a6 a7 a8 b1 b2 b3 b4 b5 b6 b7 b8 b9 b10 b11 b12 b13 b14 b15 b16 b17 b18 b19 resp).2 = .ok v → resp.jsonBody = some v)
    ∧ (∀ (a1 a2 a3 a4 a5 a6 a7 a8 b1 b2 b3 b4 b5 b6 b7 b8 b9 b10 b11 b12 b13 b14 b15 b16 b17 b18 b19 : Option PyVal) resp,
      ((insert_calendar_on_list googleCalendarApp a1 a2 a3 a4 a5 a6 a7 a8 b1 b2 b3 b4 b5 b6 b7 b8 b9 b10 b11 b12 b13 b14 b15 b16 b17 b18 b19 resp).1.length = 1)
      ∧ ∀ v, (insert_calendar_on_list googleCalendarApp a1 a2 a3 a4 a5 a6 a7 a8 b1 b2 b3 b4 b5 b6 b7 b8 b9 b10 b11 b12 b13 b14 b15 b16 b17 b18 b19 resp).2 = .ok v → resp.jsonBody = some v)
    ∧ (∀ (u : String) (a1 a2 a3 a4 a5 a6 a7 a8 a9 a10 a11 a12 a13 : Option PyVal) resp,
      ((list_calendars googleCalendarApp (some u) a1 a2 a3 a4 a5 a6 a7 a8 a9 a10 a11 a12 a13 resp).1.length = 1)
      ∧ ∀ v, (list_calendars googleCalendarApp (some u) a1 a2 a3 a4 a5 a6 a7 a8 a9 a10 a11 a12 a13 resp).2 = .ok v → resp.jsonBody = some v)
    ∧ (∀ (a1 a2 a3 a4 a5 a6 a7 a8 a9 a10 a11 a12 a13 b1 b2 b3 b4 b5 b6 b7 b8 b9 b10 : Option PyVal) resp,
      ((watch_calendar_list googleCalendarApp a1 a2 a3 a4 a5 a6 a7 a8 a9 a10 a11 a12 a13 b1 b2 b3 b4 b5 b6 b7 b8 b9 b10 resp).1.length = 1)
      ∧ ∀ v, (watch_calendar_list googleCalendarApp a1 a2 a3 a4 a5 a6 a7 a8 a9 a10 a11 a12 a13 b1 b2 b3 b4 b5 b6 b7 b8 b9 b10 resp).2 = .ok v → resp.jsonBody = some v)
    ∧ (∀ (a1 a2 a3 a4 a5 a6 a7 a8 a9 a10 : Option PyVal) resp,
      ((list_calendar_settings googleCalendarApp a1 a2 a3 a4 a5 a6 a7 a8 a9 a10 resp).1.length = 1)
      ∧ ∀ v, (list_calendar_settings googleCalendarApp a1 a2 a3 a4 a5 a6 a7 a8 a9 a10 resp).2 = .ok v → resp.jsonBody = some v)
    ∧ (∀ (st : String) (a1 a2 a3 a4 a5 a6 a7 : Option PyVal) resp,
      ((get_calendar_settings googleCalendarApp (some st) a1 a2 a3 a4 a5 a6 a7 resp).1.length = 1)
      ∧ ∀ v, (get_calendar_settings googleCalendarApp (some st) a1 a2 a3 a4 a5 a6 a7 resp).2 = .ok v → resp.jsonBody = some v)
    ∧ (∀ (a1 a2 a3 a4 a5 a6 a7 a8 a9 a10 b1 b2 b3 b4 b5 b6 b7 b8 b9 b10 : Option PyVal) resp,
      ((watch_calendar_settings googleCalendarApp a1 a2 a3 a4 a5 a6 a7 a8 a9 a10 b1 b2 b3 b4 b5 b6 b7 b8 b9 b10 resp).1.length = 1)
      ∧ ∀ v, (watch_calendar_settings googleCalendarApp a1 a2 a3 a4 a5 a6 a7 a8 a9 a10 b1 b2 b3 b4 b5 b6 b7 b8 b9 b10 resp).2 = .ok v → resp.jsonBody = some v)
    ∧ (∀ (a1 a2 a3 a4 a5 a6 a7 b1 b2 b3 b4 b5 b6 b7 b8 b9 b10 : Option PyVal) resp,
      ((stop_calendar_channel googleCalendarApp a1 a2 a3 a4 a5 a6 a7 b1 b2 b3 b4 b5 b6 b7 b8 b9 b10 resp).1.length = 1)
      ∧ ∀ v, (stop_calendar_channel googleCalendarApp a1 a2 a3 a4 a5 a6 a7 b1 b2 b3 b4 b5 b6 b7 b8 b9 b10 resp).2 = .ok v → resp.jsonBody = some v)
    ∧ (∀ (a1 a2 a3 a4 a5 a6 a7 : Option PyVal) resp,
      ((get_calendar_colors googleCalendarApp a1 a2 a3 a4 a5 a6 a7 resp).1.length = 1)
      ∧ ∀ v, (get_calendar_colors googleCalendarApp a1 a2 a3 a4 a5 a6 a7 resp).2 = .ok v → resp.jsonBody = some v)
    ∧ (∀ (a1 a2 a3 a4 a5 a6 a7 b1 b2 b3 b4 b5 b6 : Option PyVal) resp,
      ((query_free_busy googleCalendarApp a1 a2 a3 a4 a5 a6 a7 b1 b2 b3 b4 b5 b6 resp).1.length = 1)
      ∧ ∀ v, (query_free_busy googleCalendarApp a1 a2 a3 a4 a5 a6 a7 b1 b2 b3 b4 b5 b6 resp).2 = .ok v → resp.jsonBody = some v) := by
  repeat' apply And.intro
  · intro e ma tz resp
    refine ⟨rfl, fun v h => ?_⟩
    obtain ⟨u1, -, h⟩ := except_bind_ok h
    obtain ⟨ev, -, h⟩ := except_bind_ok h
    obtain ⟨s, -, h⟩ := except_bind_ok h
    exact ⟨s, (except_pure_ok h).symm⟩
  · intro t d mr tz resp
    refine ⟨rfl, fun v h => ?_⟩
    obtain ⟨u1, -, h⟩ := except_bind_ok h
    obtain ⟨b, -, h⟩ := except_bind_ok h
    obtain ⟨data, -, h⟩ := except_bind_ok h
    by_cases hc : pyTruthy (dictGetD data "items" (PyVal.arr [])) = false
    · rw [if_pos hc] at h
      exact ⟨_, (except_pure_ok h).symm⟩
    · rw [if_neg hc] at h
      obtain ⟨evs, -, h⟩ := except_bind_ok h
      obtain ⟨items, -, h⟩ := except_bind_ok h
      exact ⟨_, (except_pure_ok h).symm⟩
  · intro no mr tmi tma q ob se tz pt resp
    refine ⟨rfl, fun v h => ?_⟩
    obtain ⟨u1, -, h⟩ := except_bind_ok h
    obtain ⟨b, -, h⟩ := except_bind_ok h
    obtain ⟨data, -, h⟩ := except_bind_ok h
    by_cases hc : pyTruthy (dictGetD data "items" (PyVal.arr [])) = false
    · rw [if_pos hc] at h
      exact ⟨_, (except_pure_ok h).symm⟩
    · rw [if_neg hc] at h
      obtain ⟨evs, -, h⟩ := except_bind_ok h
      obtain ⟨items, -, h⟩ := except_bind_ok h
      exact ⟨_, (except_pure_ok h).symm⟩
  · intro t su resp
    refine ⟨rfl, fun v h => ?_⟩
    obtain ⟨u1, -, h⟩ := except_bind_ok h
    obtain ⟨ev0, -, h⟩ := except_bind_ok h
    obtain ⟨ev, -, h⟩ := except_bind_ok h
    obtain ⟨sf, -, h⟩ := except_bind_ok h
    obtain ⟨ef, -, h⟩ := except_bind_ok h
    obtain ⟨s1, -, h⟩ := except_bind_ok h
    obtain ⟨s2, -, h⟩ := except_bind_ok h
    exact ⟨_, (except_pure_ok h).symm⟩
  · intro e mr tmi tma tz sd pt resp
    refine ⟨rfl, fun v h => ?_⟩
    obtain ⟨u1, -, h⟩ := except_bind_ok h
    obtain ⟨b, -, h⟩ := except_bind_ok h
    obtain ⟨data, -, h⟩ := except_bind_ok h
    by_cases hc : pyTruthy (dictGetD data "items" (PyVal.arr [])) = false
    · rw [if_pos hc] at h
      exact ⟨_, (except_pure_ok h).symm⟩
    · rw [if_neg hc] at h
      obtain ⟨ins, -, h⟩ := except_bind_ok h
      obtain ⟨first, -, h⟩ := except_bind_ok h
      obtain ⟨fd, -, h⟩ := except_bind_ok h
      obtain ⟨items, -, h⟩ := except_bind_ok h
      exact ⟨_, (except_pure_ok h).symm⟩
  all_goals intros
  all_goals refine ⟨rfl, ?_⟩
  all_goals intro v h
  all_goals exact runHttpJson_ok h

/-- C3: for every auto-generated operation, the query-parameter dictionary
of the issued request contains exactly the declared (name, value) pairs
whose argument is not `None`, and the request body dictionary contains
exactly the declared body fields whose argument is not `None`; a `None`
argument appears in neither, and a non-`None` argument appears unchanged
(one conjunct per operation, `(k, v)`-membership both ways). -/
theorem C3_none_filtering_exact :
    (∀ (calendarId ruleId : String) (alt fields key oauth_token prettyPrint quotaUser userIp : Option PyVal) (resp : HttpResponse) (req : HttpRequest),
      (get_access_control_rule googleCalendarApp (some calendarId) (some ruleId) alt fields key oauth_token prettyPrint quotaUser userIp resp).1 = [req] →
      ∀ k v, ((k, v) ∈ req.queryParams ↔ (k, some v) ∈ [("alt", alt), ("fields", fields), ("key", key), ("oauth_token", oauth_token), ("prettyPrint", prettyPrint), ("quotaUser", quotaUser), ("userIp", userIp)])
        ∧ ((k, v) ∈ req.body.getD [] ↔ (k, some v) ∈ ([] : List (String × Option PyVal))))
    ∧ (∀ (calendarId ruleId : String) (sendNotifications alt fields key oauth_token prettyPrint quotaUser userIp etag id kind role scope : Option PyVal) (resp : HttpResponse) (req : HttpRequest),
      (update_access_control_rule googleCalendarApp (some calendarId) (some ruleId) sendNotifications alt fields key oauth_token prettyPrint quotaUser userIp etag id kind role scope resp).1 = [req] →
      ∀ k v, ((k, v) ∈ req.queryParams ↔ (k, some v) ∈ [("sendNotifications", sendNotifications), ("alt", alt), ("fields", fields), ("key", key), ("oauth_token", oauth_token), ("prettyPrint", prettyPrint), ("quotaUser", quotaUser), ("userIp", userIp)])
        ∧ ((k, v) ∈ req.body.getD [] ↔ (k, some v) ∈ [("etag", etag), ("id", id), ("kind", kind), ("role", role), ("scope", scope)]))
    ∧ (∀ (calendarId ruleId : String) (alt fields key oauth_token prettyPrint quotaUser userIp : Option PyVal) (resp : HttpResponse) (req : HttpRequest),
      (delete_access_control_rule googleCalendarApp (some calendarId) (some ruleId) alt fields key oauth_token prettyPrint quotaUser userIp resp).1 = [req] →
      ∀ k v, ((k, v) ∈ req.queryParams ↔ (k, some v) ∈ [("alt", alt), ("fields", fields), ("key", key), ("oauth_token", oauth_token), ("prettyPrint", prettyPrint), ("quotaUser", quotaUser), ("userIp", userIp)])
        ∧ ((k, v) ∈ req.body.getD [] ↔ (k, some v) ∈ ([] : List (String × Option PyVal))))
    ∧ (∀ (calendarId ruleId : String) (sendNotifications alt fields key oauth_token prettyPrint quotaUser userIp etag id kind role scope : Option PyVal) (resp : HttpResponse) (req : HttpRequest),
      (patch_access_control_rule googleCalendarApp (some calendarId) (some ruleId) sendNotifications alt fields key oauth_token prettyPrint quotaUser userIp etag id kind role scope resp).1 = [req] →
      ∀ k v, ((k, v) ∈ req.queryParams ↔ (k, some v) ∈ [("sendNotifications", sendNotifications), ("alt", alt), ("fields", fields), ("key", key), ("oauth_token", oauth_token), ("prettyPrint", prettyPrint), ("quotaUser", quotaUser), ("userIp", userIp)])
        ∧ ((k, v) ∈ req.body.getD [] ↔ (k, some v) ∈ [("etag", etag), ("id", id), ("kind", kind), ("role", role), ("scope", scope)]))
    ∧ (∀ (calendarId : String) (maxResults pageToken showDeleted syncToken alt fields key oauth_token prettyPrint quotaUser userIp : Option PyVal) (resp : HttpResponse) (req : HttpRequest),
      (return_access_control_rules googleCalendarApp (some calendarId) maxResults pageToken showDeleted syncToken alt fields key oauth_token prettyPrint quotaUser userIp resp).1 = [req] →
      ∀ k v, ((k, v) ∈ req.queryParams ↔ (k, some v) ∈ [("maxResults", maxResults), ("pageToken", pageToken), ("showDeleted", showDeleted), ("syncToken", syncToken), ("alt", alt), ("fields", fields), ("key", key), ("oauth_token", oauth_token), ("prettyPrint", prettyPrint), ("quotaUser", quotaUser), ("userIp", userIp)])
        ∧ ((k, v) ∈ req.body.getD [] ↔ (k, some v) ∈ ([] : List (String × Option PyVal))))
    ∧ (∀ (calendarId : String) (sendNotifications alt fields key oauth_token prettyPrint quotaUser userIp etag id kind role scope : Option PyVal) (resp : HttpResponse) (req : HttpRequest),
      (insert_access_control_rule googleCalendarApp (some calendarId) sendNotifications alt fields key oauth_token prettyPrint quotaUser userIp etag id kind role scope resp).1 = [req] →
      ∀ k v, ((k, v) ∈ req.queryParams ↔ (k, some v) ∈ [("sendNotifications", sendNotifications), ("alt", alt), ("fields", fields), ("key", key), ("oauth_token", oauth_token), ("prettyPrint", prettyPrint), ("quotaUser", quotaUser), ("userIp", userIp)])
        ∧ ((k, v) ∈ req.body.getD [] ↔ (k, some v) ∈ [("etag", etag), ("id", id), ("kind", kind), ("role", role), ("scope", scope)]))
    ∧ (∀ (calendarId : String) (maxResults pageToken showDeleted syncToken alt fields key oauth_token prettyPrint quotaUser userIp address expiration id kind params payload resourceId resourceUri token type : Option PyVal) (resp : HttpResponse) (req : HttpRequest),
      (watch_access_control_rules googleCalendarApp (some calendarId) maxResults pageToken showDeleted syncToken alt fields key oauth_token prettyPrint quotaUser userIp address expiration id kind params payload resourceId resourceUri token type resp).1 = [req] →
      ∀ k v, ((k, v) ∈ req.queryParams ↔ (k, some v) ∈ [("maxResults", maxResults), ("pageToken", pageToken), ("showDeleted", showDeleted), ("syncToken", syncToken), ("alt", alt), ("fields", fields), ("key", key), ("oauth_token", oauth_token), ("prettyPrint", prettyPrint), ("quotaUser", quotaUser), ("userIp", userIp)])
        ∧ ((k, v) ∈ req.body.getD [] ↔ (k, some v) ∈ [("address", address), ("expiration", expiration), ("id", id), ("kind", kind), ("params", params), ("payload", payload), ("resourceId", resourceId), ("resourceUri", resourceUri), ("token", token), ("type", type)]))
    ∧ (∀ (calendarId eventId : String) (sendNotifications sendUpdates alt fields key oauth_token prettyPrint quotaUser userIp : Option PyVal) (resp : HttpResponse) (req : HttpRequest),
      (delete_event googleCalendarApp (some calendarId) (some eventId) sendNotifications sendUpdates alt fields key oauth_token prettyPrint quotaUser userIp resp).1 = [req] →
      ∀ k v, ((k, v) ∈ req.queryParams ↔ (k, some v) ∈ [("sendNotifications", sendNotifications), ("sendUpdates", sendUpdates), ("alt", alt), ("fields", fields), ("key", key), ("oauth_token", oauth_token), ("prettyPrint", prettyPrint), ("quotaUser", quotaUser), ("userIp", userIp)])
        ∧ ((k, v) ∈ req.body.getD [] ↔ (k, some v) ∈ ([] : List (String × Option PyVal))))
    ∧ (∀ (calendarId eventId : String) (alwaysIncludeEmail maxAttendees maxResults originalStart pageToken showDeleted timeMax timeMin timeZone alt fields key oauth_token prettyPrint quotaUser userIp : Option PyVal) (resp : HttpResponse) (req : HttpRequest),
      (insert_event googleCalendarApp (some calendarId) (some eventId) alwaysIncludeEmail maxAttendees maxResults originalStart pageToken showDeleted timeMax timeMin timeZone alt fields key oauth_token prettyPrint quotaUser userIp resp).1 = [req] →
      ∀ k v, ((k, v) ∈ req.queryParams ↔ (k, some v) ∈ [("alwaysIncludeEmail", alwaysIncludeEmail), ("maxAttendees", maxAttendees), ("maxResults", maxResults), ("originalStart", originalStart), ("pageToken", pageToken), ("showDeleted", showDeleted), ("timeMax", timeMax), ("timeMin", timeMin), ("timeZone", timeZone), ("alt", alt), ("fields", fields), ("key", key), ("oauth_token", oauth_token), ("prettyPrint", prettyPrint), ("quotaUser", quotaUser), ("userIp", userIp)])
        ∧ ((k, v) ∈ req.body.getD [] ↔ (k, some v) ∈ ([] : List (String × Option PyVal))))
    ∧ (∀ (calendarId eventId : String) (destination sendNotifications sendUpdates alt fields key oauth_token prettyPrint quotaUser userIp : Option PyVal) (resp : HttpResponse) (req : HttpRequest),
      (move_event googleCalendarApp (some calendarId) (some eventId) destination sendNotifications sendUpdates alt fields key oauth_token prettyPrint quotaUser userIp resp).1 = [req] →
      ∀ k v, ((k, v) ∈ req.queryParams ↔ (k, some v) ∈ [("destination", destination), ("sendNotifications", sendNotifications), ("sendUpdates", sendUpdates), ("alt", alt), ("fields", fields), ("key", key), ("oauth_token", oauth_token), ("prettyPrint", prettyPrint), ("quotaUser", quotaUser), ("userIp", userIp)])
        ∧ ((k, v) ∈ req.body.getD [] ↔ (k, some v) ∈ ([] : List (String × Option PyVal))))
    ∧ (∀ (calendarId : String) (alwaysIncludeEmail eventTypes iCalUID maxAttendees maxResults orderBy pageToken privateExtendedProperty q sharedExtendedProperty showDeleted showHiddenInvitations singleEvents syncToken timeMax timeMin timeZone updatedMin alt fields key oauth_token prettyPrint quotaUser userIp : Option PyVal) (resp : HttpResponse) (req : HttpRequest),
      (return_events_from_calendar googleCalendarApp (some calendarId) alwaysIncludeEmail eventTypes iCalUID maxAttendees maxResults orderBy pageToken privateExtendedProperty q sharedExtendedProperty showDeleted showHiddenInvitations singleEvents syncToken timeMax timeMin timeZone updatedMin alt fields key oauth_token prettyPrint quotaUser userIp resp).1 = [req] →
      ∀ k v, ((k, v) ∈ req.queryParams ↔ (k, some v) ∈ [("alwaysIncludeEmail", alwaysIncludeEmail), ("eventTypes", eventTypes), ("iCalUID", iCalUID), ("maxAttendees", maxAttendees), ("maxResults", maxResults), ("orderBy", orderBy), ("pageToken", pageToken), ("privateExtendedProperty", privateExtendedProperty), ("q", q), ("sharedExtendedProperty", sharedExtendedProperty), ("showDeleted", showDeleted), ("showHiddenInvitations", showHiddenInvitations), ("singleEvents", singleEvents), ("syncToken", syncToken), ("timeMax", timeMax), ("timeMin", timeMin), ("timeZone", timeZone), ("updatedMin", updatedMin), ("alt", alt), ("fields", fields), ("key", key), ("oauth_token", oauth_token), ("prettyPrint", prettyPrint), ("quotaUser", quotaUser), ("userIp", userIp)])
        ∧ ((k, v) ∈ req.body.getD [] ↔ (k, some v) ∈ ([] : List (String × Option PyVal))))
    ∧ (∀ (calendarId : String) (alwaysIncludeEmail eventTypes iCalUID maxAttendees maxResults orderBy pageToken privateExtendedProperty q sharedExtendedProperty showDeleted showHiddenInvitations singleEvents syncToken timeMax timeMin timeZone updatedMin alt fields key oauth_token prettyPrint quotaUser userIp address expiration id kind params payload resourceId resourceUri token type : Option PyVal) (resp : HttpResponse) (req : HttpRequest),
      (watch_events googleCalendarApp (some calendarId) alwaysIncludeEmail eventTypes iCalUID maxAttendees maxResults orderBy pageToken privateExtendedProperty q sharedExtendedProperty showDeleted showHiddenInvitations singleEvents syncToken timeMax timeMin timeZone updatedMin alt fields key oauth_token prettyPrint quotaUser userIp address expiration id kind params payload resourceId resourceUri token type resp).1 = [req] →
      ∀ k v, ((k, v) ∈ req.queryParams ↔ (k, some v) ∈ [("alwaysIncludeEmail", alwaysIncludeEmail), ("eventTypes", eventTypes), ("iCalUID", iCalUID), ("maxAttendees", maxAttendees), ("maxResults", maxResults), ("orderBy", orderBy), ("pageToken", pageToken), ("privateExtendedProperty", privateExtendedProperty), ("q", q), ("sharedExtendedProperty", sharedExtendedProperty), ("showDeleted", showDeleted), ("showHiddenInvitations", showHiddenInvitations), ("singleEvents", singleEvents), ("syncToken", syncToken), ("timeMax", timeMax), ("timeMin", timeMin), ("timeZone", timeZone), ("updatedMin", updatedMin), ("alt", alt), ("fields", fields), ("key", key), ("oauth_token", oauth_token), ("prettyPrint", prettyPrint), ("quotaUser", quotaUser), ("userIp", userIp)])
        ∧ ((k, v) ∈ req.body.getD [] ↔ (k, some v) ∈ [("address", address), ("expiration", expiration), ("id", id), ("kind", kind), ("params", params), ("payload", payload), ("resourceId", resourceId), ("resourceUri", resourceUri), ("token", token), ("type", type)]))
    ∧ (∀ (calendarId : String) (alt fields key oauth_token prettyPrint quotaUser userIp : Option PyVal) (resp : HttpResponse) (req : HttpRequest),
      (get_calendar googleCalendarApp (some calendarId) alt fields key oauth_token prettyPrint quotaUser userIp resp).1 = [req] →
      ∀ k v, ((k, v) ∈ req.queryParams ↔ (k, some v) ∈ [("alt", alt), ("fields", fields), ("key", key), ("oauth_token", oauth_token), ("prettyPrint", prettyPrint), ("quotaUser", quotaUser), ("userIp", userIp)])
        ∧ ((k, v) ∈ req.body.getD [] ↔ (k, some v) ∈ ([] : List (String × Option PyVal))))
    ∧ (∀ (calendarId : String) (alt fields key oauth_token prettyPrint quotaUser userIp conferenceProperties description etag id kind location summary timeZone : Option PyVal) (resp : HttpResponse) (req : HttpRequest),
      (update_calendar googleCalendarApp (some calendarId) alt fields key oauth_token prettyPrint quotaUser userIp conferenceProperties description etag id kind location summary timeZone resp).1 = [req] →
      ∀ k v, ((k, v) ∈ req.queryParams ↔ (k, some v) ∈ [("alt", alt), ("fields", fields), ("key", key), ("oauth_token", oauth_token), ("prettyPrint", prettyPrint), ("quotaUser", quotaUser), ("userIp", userIp)])
        ∧ ((k, v) ∈ req.body.getD [] ↔ (k, some v) ∈ [("conferenceProperties", conferenceProperties), ("description", description), ("etag", etag), ("id", id), ("kind", kind), ("location", location), ("summary", summary), ("timeZone", timeZone)]))
    ∧ (∀ (calendarId : String) (alt fields key oauth_token prettyPrint quotaUser userIp : Option PyVal) (resp : HttpResponse) (req : HttpRequest),
      (delete_calendar googleCalendarApp (some calendarId) alt fields key oauth_token prettyPrint quotaUser userIp resp).1 = [req] →
      ∀ k v, ((k, v) ∈ req.queryParams ↔ (k, some v) ∈ [("alt", alt), ("fields", fields), ("key", key), ("oauth_token", oauth_token), ("prettyPrint", prettyPrint), ("quotaUser", quotaUser), ("userIp", userIp)])
        ∧ ((k, v) ∈ req.body.getD [] ↔ (k, some v) ∈ ([] : List (String × Option PyVal))))
    ∧ (∀ (calendarId : String) (alt fields key oauth_token prettyPrint quotaUser userIp conferenceProperties description etag id kind location summary timeZone : Option PyVal) (resp : HttpResponse) (req : HttpRequest),
      (patch_calendar googleCalendarApp (some calendarId) alt fields key oauth_token prettyPrint quotaUser userIp conferenceProperties description etag id kind location summary timeZone resp).1 = [req] →
      ∀ k v, ((k, v) ∈ req.queryParams ↔ (k, some v) ∈ [("alt", alt), ("fields", fields), ("key", key), ("oauth_token", oauth_token), ("prettyPrint", prettyPrint), ("quotaUser", quotaUser), ("userIp", userIp)])
        ∧ ((k, v) ∈ req.body.getD [] ↔ (k, some v) ∈ [("conferenceProperties", conferenceProperties), ("description", description), ("etag", etag), ("id", id), ("kind", kind), ("location", location), ("summary", summary), ("timeZone", timeZone)]))
    ∧ (∀ (calendarId : String) (alt fields key oauth_token prettyPrint quotaUser userIp : Option PyVal) (resp : HttpResponse) (req : HttpRequest),
      (clear_calendar googleCalendarApp (some calendarId) alt fields key oauth_token prettyPrint quotaUser userIp resp).1 = [req] →
      ∀ k v, ((k, v) ∈ req.queryParams ↔ (k, some v) ∈ [("alt", alt), ("fields", fields), ("key", key), ("oauth_token", oauth_token), ("prettyPrint", prettyPrint), ("quotaUser", quotaUser), ("userIp", userIp)])
        ∧ ((k, v) ∈ req.body.getD [] ↔ (k, some v) ∈ ([] : List (String × Option PyVal))))
    ∧ (∀ (alt fields key oauth_token prettyPrint quotaUser userIp conferenceProperties description etag id kind location summary timeZone : Option PyVal) (resp : HttpResponse) (req : HttpRequest),
      (calendar googleCalendarApp alt fields key oauth_token prettyPrint quotaUser userIp conferenceProperties description etag id kind location summary timeZone resp).1 = [req] →
      ∀ k v, ((k, v) ∈ req.queryParams ↔ (k, some v) ∈ [("alt", alt), ("fields", fields), ("key", key), ("oauth_token", oauth_token), ("prettyPrint", prettyPrint), ("quotaUser", quotaUser), ("userIp", userIp)])
        ∧ ((k, v) ∈ req.body.getD [] ↔ (k, some v) ∈ [("conferenceProperties", conferenceProperties), ("description", description), ("etag", etag), ("id", id), ("kind", kind), ("location", location), ("summary", summary), ("timeZone", timeZone)]))
    ∧ (∀ (calendarId : String) (alt fields key oauth_token prettyPrint quotaUser userIp : Option PyVal) (resp : HttpResponse) (req : HttpRequest),
      (get_calendar_list googleCalendarApp (some calendarId) alt fields key oauth_token prettyPrint quotaUser userIp resp).1 = [req] →
      ∀ k v, ((k, v) ∈ req.queryParams ↔ (k, some v) ∈ [("alt", alt), ("fields", fields), ("key", key), ("oauth_token", oauth_token), ("prettyPrint", prettyPrint), ("quotaUser", quotaUser), ("userIp", userIp)])
        ∧ ((k, v) ∈ req.body.getD [] ↔ (k, some v) ∈ ([] : List (String × Option PyVal))))
    ∧ (∀ (calendarId : String) (colorRgbFormat alt fields key oauth_token prettyPrint quotaUser userIp accessRole backgroundColor colorId conferenceProperties defaultReminders deleted description etag foregroundColor hidden id kind location notificationSettings primary selected summary summaryOverride timeZone : Option PyVal) (resp : HttpResponse) (req : HttpRequest),
      (update_calendar_list googleCalendarApp (some calendarId) colorRgbFormat alt fields key oauth_token prettyPrint quotaUser userIp accessRole backgroundColor colorId conferenceProperties defaultReminders deleted description etag foregroundColor hidden id kind location notificationSettings primary selected summary summaryOverride timeZone resp).1 = [req] →
      ∀ k v, ((k, v) ∈ req.queryParams ↔ (k, some v) ∈ [("colorRgbFormat", colorRgbFormat), ("alt", alt), ("fields", fields), ("key", key), ("oauth_token", oauth_token), ("prettyPrint", prettyPrint), ("quotaUser", quotaUser), ("userIp", userIp)])
        ∧ ((k, v) ∈ req.body.getD [] ↔ (k, some v) ∈ [("accessRole", accessRole), ("backgroundColor", backgroundColor), ("colorId", colorId), ("conferenceProperties", conferenceProperties), ("defaultReminders", defaultReminders), ("deleted", deleted), ("description", description), ("etag", etag), ("foregroundColor", foregroundColor), ("hidden", hidden), ("id", id), ("kind", kind), ("location", location), ("notificationSettings", notificationSettings), ("primary", primary), ("selected", selected), ("summary", summary), ("summaryOverride", summaryOverride), ("timeZone", timeZone)]))
    ∧ (∀ (calendarId : String) (alt fields key oauth_token prettyPrint quotaUser userIp : Option PyVal) (resp : HttpResponse) (req : HttpRequest),
      (remove_calendar_on_list googleCalendarApp (some calendarId) alt fields key oauth_token prettyPrint quotaUser userIp resp).1 = [req] →
      ∀ k v, ((k, v) ∈ req.queryParams ↔ (k, some v) ∈ [("alt", alt), ("fields", fields), ("key", key), ("oauth_token", oauth_token), ("prettyPrint", prettyPrint), ("quotaUser", quotaUser), ("userIp", userIp)])
        ∧ ((k, v) ∈ req.body.getD [] ↔ (k, some v) ∈ ([] : List (String × Option PyVal))))
    ∧ (∀ (calendarId : String) (colorRgbFormat alt fields key oauth_token prettyPrint quotaUser userIp accessRole backgroundColor colorId conferenceProperties defaultReminders deleted description etag foregroundColor hidden id kind location notificationSettings primary selected summary summaryOverride timeZone : Option PyVal) (resp : HttpResponse) (req : HttpRequest),
      (patch_calendar_list googleCalendarApp (some calendarId) colorRgbFormat alt fields key oauth_token prettyPrint quotaUser userIp accessRole backgroundColor colorId conferenceProperties defaultReminders deleted description etag foregroundColor hidden id kind location notificationSettings primary selected summary summaryOverride timeZone resp).1 = [req] →
      ∀ k v, ((k, v) ∈ req.queryParams ↔ (k, some v) ∈ [("colorRgbFormat", colorRgbFormat), ("alt", alt), ("fields", fields), ("key", key), ("oauth_token", oauth_token), ("prettyPrint", prettyPrint), ("quotaUser", quotaUser), ("userIp", userIp)])
        ∧ ((k, v) ∈ req.body.getD [] ↔ (k, some v) ∈ [("accessRole", accessRole), ("backgroundColor", backgroundColor), ("colorId", colorId), ("conferenceProperties", conferenceProperties), ("defaultReminders", defaultReminders), ("deleted", deleted), ("description", description), ("etag", etag), ("foregroundColor", foregroundColor), ("hidden", hidden), ("id", id), ("kind", kind), ("location", location), ("notificationSettings", notificationSettings), ("primary", primary), ("selected", selected), ("summary", summary), ("summaryOverride", summaryOverride), ("timeZone", timeZone)]))
    ∧ (∀ (colorRgbFormat alt fields key oauth_token prettyPrint quotaUser userIp accessRole backgroundColor colorId conferenceProperties defaultReminders deleted description etag foregroundColor hidden id kind location notificationSettings primary selected summary summaryOverride timeZone : Option PyVal) (resp : HttpResponse) (req : HttpRequest),
      (insert_calendar_on_list googleCalendarApp colorRgbFormat alt fields key oauth_token prettyPrint quotaUser userIp accessRole backgroundColor colorId conferenceProperties defaultReminders deleted description etag foregroundColor hidden id kind location notificationSettings primary selected summary summaryOverride timeZone resp).1 = [req] →
      ∀ k v, ((k, v) ∈ req.queryParams ↔ (k, some v) ∈ [("colorRgbFormat", colorRgbFormat), ("alt", alt), ("fields", fields), ("key", key), ("oauth_token", oauth_token), ("prettyPrint", prettyPrint), ("quotaUser", quotaUser), ("userIp", userIp)])
        ∧ ((k, v) ∈ req.body.getD [] ↔ (k, some v) ∈ [("accessRole", accessRole), ("backgroundColor", backgroundColor), ("colorId", colorId), ("conferenceProperties", conferenceProperties), ("defaultReminders", defaultReminders), ("deleted", deleted), ("description", description), ("etag", etag), ("foregroundColor", foregroundColor), ("hidden", hidden), ("id", id), ("kind", kind), ("location", location), ("notificationSettings", notificationSettings), ("primary", primary), ("selected", selected), ("summary", summary), ("summaryOverride", summaryOverride), ("timeZone", timeZone)]))
    ∧ (∀ (userId : String) (maxResults minAccessRole pageToken showDeleted showHidden syncToken alt fields key oauth_token prettyPrint quotaUser userIp : Option PyVal) (resp : HttpResponse) (req : HttpRequest),
      (list_calendars googleCalendarApp (some userId) maxResults minAccessRole pageToken showDeleted showHidden syncToken alt fields key oauth_token prettyPrint quotaUser userIp resp).1 = [req] →
      ∀ k v, ((k, v) ∈ req.queryParams ↔ (k, some v) ∈ [("maxResults", maxResults), ("minAccessRole", minAccessRole), ("pageToken", pageToken), ("showDeleted", showDeleted), ("showHidden", showHidden), ("syncToken", syncToken), ("alt", alt), ("fields", fields), ("key", key), ("oauth_token", oauth_token), ("prettyPrint", prettyPrint), ("quotaUser", quotaUser), ("userIp", userIp)])
        ∧ ((k, v) ∈ req.body.getD [] ↔ (k, some v) ∈ ([] : List (String × Option PyVal))))
    ∧ (∀ (maxResults minAccessRole pageToken showDeleted showHidden syncToken alt fields key oauth_token prettyPrint quotaUser userIp address expiration id kind params payload resourceId resourceUri token type : Option PyVal) (resp : HttpResponse) (req : HttpRequest),
      (watch_calendar_list googleCalendarApp maxResults minAccessRole pageToken showDeleted showHidden syncToken alt fields key oauth_token prettyPrint quotaUser userIp address expiration id kind params payload resourceId resourceUri token type resp).1 = [req] →
      ∀ k v, ((k, v) ∈ req.queryParams ↔ (k, some v) ∈ [("maxResults", maxResults), ("minAccessRole", minAccessRole), ("pageToken", pageToken), ("showDeleted", showDeleted), ("showHidden", showHidden), ("syncToken", syncToken), ("alt", alt), ("fields", fields), ("key", key), ("oauth_token", oauth_token), ("prettyPrint", prettyPrint), ("quotaUser", quotaUser), ("userIp", userIp)])
        ∧ ((k, v) ∈ req.body.getD [] ↔ (k, some v) ∈ [("address", address), ("expiration", expiration), ("id", id), ("kind", kind), ("params", params), ("payload", payload), ("resourceId", resourceId), ("resourceUri", resourceUri), ("token", token), ("type", type)]))
    ∧ (∀ (maxResults pageToken syncToken alt fields key oauth_token prettyPrint quotaUser userIp : Option PyVal) (resp : HttpResponse) (req : HttpRequest),
      (list_calendar_settings googleCalendarApp maxResults pageToken syncToken alt fields key oauth_token prettyPrint quotaUser userIp resp).1 = [req] →
      ∀ k v, ((k, v) ∈ req.queryParams ↔ (k, some v) ∈ [("maxResults", maxResults), ("pageToken", pageToken), ("syncToken", syncToken), ("alt", alt), ("fields", fields), ("key", key), ("oauth_token", oauth_token), ("prettyPrint", prettyPrint), ("quotaUser", quotaUser), ("userIp", userIp)])
        ∧ ((k, v) ∈ req.body.getD [] ↔ (k, some v) ∈ ([] : List (String × Option PyVal))))
    ∧ (∀ (setting : String) (alt fields key oauth_token prettyPrint quotaUser userIp : Option PyVal) (resp : HttpResponse) (req : HttpRequest),
      (get_calendar_settings googleCalendarApp (some setting) alt fields key oauth_token prettyPrint quotaUser userIp resp).1 = [req] →
      ∀ k v, ((k, v) ∈ req.queryParams ↔ (k, some v) ∈ [("alt", alt), ("fields", fields), ("key", key), ("oauth_token", oauth_token), ("prettyPrint", prettyPrint), ("quotaUser", quotaUser), ("userIp", userIp)])
        ∧ ((k, v) ∈ req.body.getD [] ↔ (k, some v) ∈ ([] : List (String × Option PyVal))))
    ∧ (∀ (maxResults pageToken syncToken alt fields key oauth_token prettyPrint quotaUser userIp address expiration id kind params payload resourceId resourceUri token type : Option PyVal) (resp : HttpResponse) (req : HttpRequest),
      (watch_calendar_settings googleCalendarApp maxResults pageToken syncToken alt fields key oauth_token prettyPrint quotaUser userIp address expiration id kind params payload resourceId resourceUri token type resp).1 = [req] →
      ∀ k v, ((k, v) ∈ req.queryParams ↔ (k, some v) ∈ [("maxResults", maxResults), ("pageToken", pageToken), ("syncToken", syncToken), ("alt", alt), ("fields", fields), ("key", key), ("oauth_token", oauth_token), ("prettyPrint", prettyPrint), ("quotaUser", quotaUser), ("userIp", userIp)])
        ∧ ((k, v) ∈ req.body.getD [] ↔ (k, some v) ∈ [("address", address), ("expiration", expiration), ("id", id), ("kind", kind), ("params", params), ("payload", payload), ("resourceId", resourceId), ("resourceUri", resourceUri), ("token", token), ("type", type)]))
    ∧ (∀ (alt fields key oauth_token prettyPrint quotaUser userIp address expiration id kind params payload resourceId resourceUri token type : Option PyVal) (resp : HttpResponse) (req : HttpRequest),
      (stop_calendar_channel googleCalendarApp alt fields key oauth_token prettyPrint quotaUser userIp address expiration id kind params payload resourceId resourceUri token type resp).1 = [req] →
      ∀ k v, ((k, v) ∈ req.queryParams ↔ (k, some v) ∈ [("alt", alt), ("fields", fields), ("key", key), ("oauth_token", oauth_token), ("prettyPrint", prettyPrint), ("quotaUser", quotaUser), ("userIp", userIp)])
        ∧ ((k, v) ∈ req.body.getD [] ↔ (k, some v) ∈ [("address", address), ("expiration", expiration), ("id", id), ("kind", kind), ("params", params), ("payload", payload), ("resourceId", resourceId), ("resourceUri", resourceUri), ("token", token), ("type", type)]))
    ∧ (∀ (alt fields key oauth_token prettyPrint quotaUser userIp : Option PyVal) (resp : HttpResponse) (req : HttpRequest),
      (get_calendar_colors googleCalendarApp alt fields key oauth_token prettyPrint quotaUser userIp resp).1 = [req] →
      ∀ k v, ((k, v) ∈ req.queryParams ↔ (k, some v) ∈ [("alt", alt), ("fields", fields), ("key", key), ("oauth_token", oauth_token), ("prettyPrint", prettyPrint), ("quotaUser", quotaUser), ("userIp", userIp)])
        ∧ ((k, v) ∈ req.body.getD [] ↔ (k, some v) ∈ ([] : List (String × Option PyVal))))
    ∧ (∀ (alt fields key oauth_token prettyPrint quotaUser userIp calendarExpansionMax groupExpansionMax items timeMax timeMin timeZone : Option PyVal) (resp : HttpResponse) (req : HttpRequest),
      (query_free_busy googleCalendarApp alt fields key oauth_token prettyPrint quotaUser userIp calendarExpansionMax groupExpansionMax items timeMax timeMin timeZone resp).1 = [req] →
      ∀ k v, ((k, v) ∈ req.queryParams ↔ (k, some v) ∈ [("alt", alt), ("fields", fields), ("key", key), ("oauth_token", oauth_token), ("prettyPrint", prettyPrint), ("quotaUser", quotaUser), ("userIp", userIp)])
        ∧ ((k, v) ∈ req.body.getD [] ↔ (k, some v) ∈ [("calendarExpansionMax", calendarExpansionMax), ("groupExpansionMax", groupExpansionMax), ("items", items), ("timeMax", timeMax), ("timeMin", timeMin), ("timeZone", timeZone)])) := by
  repeat' apply And.intro
  all_goals
    intros
    rename_i req h k v
    obtain ⟨h1, -⟩ := List.cons_eq_cons.mp h
    subst h1
    refine ⟨mem_pyFilterNone, ?_⟩
    simp only [Option.getD_some, Option.getD_none]
    first
      | exact mem_pyFilterNone
      | simp

/-- C3 witness: the `get_access_control_rule` conjunct applied at
`calendarId="c1"`, `ruleId="r1"`, `alt='json'` and every other argument
`None`: the pair `("alt", 'json')` is in the query dictionary. -/
theorem C3_none_filtering_exact_witness :
    ("alt", PyVal.str "json") ∈ pyFilterNone
      [("alt", some (PyVal.str "json")), ("fields", none), ("key", none),
        ("oauth_token", none), ("prettyPrint", none), ("quotaUser", none),
        ("userIp", none)] :=
  ((C3_none_filtering_exact.1 "c1" "r1" (some (PyVal.str "json")) none none none
      none none none { status := 200, jsonBody := none }
      { verb := .get,
        url := "https://www.googleapis.com/calendar/v3" ++ "/calendars/" ++ "c1"
          ++ "/acl/" ++ "r1",
        queryParams := pyFilterNone [("alt", some (PyVal.str "json")),
          ("fields", none), ("key", none), ("oauth_token", none),
          ("prettyPrint", none), ("quotaUser", none), ("userIp", none)],
        body := none }
      rfl "alt" (PyVal.str "json")).1).mpr (by simp)

/-- C7 witness: the `get_event` conjunct applied at a concrete 200 response
whose JSON body is the empty event object: one request issued, and the
returned value is the formatted text string. -/
theorem C7_one_request_and_result_shape_witness :
    (get_event googleCalendarApp "abc" none none
        { status := 200, jsonBody := some (PyVal.obj []) }).1.length = 1
    ∧ ∃ s, PyVal.str ("Event: Untitled event\nID: abc\nWhen: Unknown to Unknown\nWhere: No location specified\nDescription: No description\nCreator: Unknown\nOrganizer: Unknown\nRecurring: No\n")
        = PyVal.str s :=
  ⟨(C7_one_request_and_result_shape.1 "abc" none none
      { status := 200, jsonBody := some (PyVal.obj []) }).1,
    (C7_one_request_and_result_shape.1 "abc" none none
      { status := 200, jsonBody := some (PyVal.obj []) }).2 _ rfl⟩

theorem strContains_append_pair (a b : String) : strContains (a ++ b) b :=
  ⟨a, "", by rw [String.append_empty]⟩

theorem strContains_extend {s sub : String} (t : String) (h : strContains s sub) :
    strContains (s ++ t) sub := by
  obtain ⟨l, r, rfl⟩ := h
  exact ⟨l, r ++ t, by simp [String.append_assoc]⟩

/-- C4: whenever `get_event` returns a string for a response whose JSON
body is an event object `fs`, that string contains the event's summary
value (`"Untitled event"` when absent) and the `_format_datetime`
renderings of the event's start time (`start.dateTime`, else `start.date`,
else `"Unknown"`) and end time (same fallback on `end`). -/
theorem C4_get_event_output_contains (eid : String) (ma : Option Int)
    (tz : Option String) (resp : HttpResponse) (fs : List (String × PyVal)) (s : String)
    (hbody : resp.jsonBody = some (.obj fs))
    (hok : (get_event googleCalendarApp eid ma tz resp).2 = .ok (.str s)) :
    strContains s (pyStr (dictGetD fs "summary" (.str "Untitled event")))
    ∧ (∃ r1, format_datetime_dyn (eventTimeRaw fs "start") = .ok r1 ∧ strContains s r1)
    ∧ (∃ r2, format_datetime_dyn (eventTimeRaw fs "end") = .ok r2 ∧ strContains s r2) := by
  obtain ⟨u1, -, h⟩ := except_bind_ok hok
  obtain ⟨ev0, hev, h⟩ := except_bind_ok h
  simp only [responseJson, hbody] at hev
  rw [Except.ok.injEq] at hev
  subst hev
  obtain ⟨sfmt, hs, h⟩ := except_bind_ok h
  have hss := except_pure_ok h
  rw [PyVal.str.injEq] at hss
  subst hss
  unfold formatEventDetails at hs
  obtain ⟨ev, hev2, hs⟩ := except_bind_ok hs
  simp only [asDict, Except.ok.injEq] at hev2
  subst hev2
  obtain ⟨sf, hsf, hs⟩ := except_bind_ok hs
  obtain ⟨ef, hef, hs⟩ := except_bind_ok hs
  obtain ⟨r1, hr1, hs⟩ := except_bind_ok hs
  obtain ⟨r2, hr2, hs⟩ := except_bind_ok hs
  obtain ⟨cD, hcD, hs⟩ := except_bind_ok hs
  obtain ⟨oD, hoD, hs⟩ := except_bind_ok hs
  by_cases hc : pyTruthy (dictGetD fs "attendees" (PyVal.arr [])) = true
  · simp only [if_pos hc] at hs
    obtain ⟨ats, -, hs⟩ := except_bind_ok hs
    obtain ⟨items, -, hs⟩ := except_bind_ok hs
    obtain ⟨y, -, hs⟩ := except_bind_ok hs
    replace hs := except_pure_ok hs
    subst hs
    refine ⟨?_, ⟨r1, ?_, ?_⟩, ⟨r2, ?_, ?_⟩⟩
    · repeat first | exact strContains_append_pair _ _ | apply strContains_extend
    · unfold eventTimeRaw; rw [asDict_ok hsf]; exact hr1
    · repeat first | exact strContains_append_pair _ _ | apply strContains_extend
    · unfold eventTimeRaw; rw [asDict_ok hef]; exact hr2
    · repeat first | exact strContains_append_pair _ _ | apply strContains_extend
  · simp only [if_neg hc] at hs
    obtain ⟨y, -, hs⟩ := except_bind_ok hs
    replace hs := except_pure_ok hs
    subst hs
    refine ⟨?_, ⟨r1, ?_, ?_⟩, ⟨r2, ?_, ?_⟩⟩
    · repeat first | exact strContains_append_pair _ _ | apply strContains_extend
    · unfold eventTimeRaw; rw [asDict_ok hsf]; exact hr1
    · repeat first | exact strContains_append_pair _ _ | apply strContains_extend
    · unfold eventTimeRaw; rw [asDict_ok hef]; exact hr2
    · repeat first | exact strContains_append_pair _ _ | apply strContains_extend

/-- C4 witness: a concrete event with a summary, a timed start and an
all-day end, on a 200 response: the formatted output contains the summary
and both rendered times. -/
theorem C4_get_event_output_contains_witness :
    strContains ("Event: Standup\nID: ev1\nWhen: 2023-06-01 10:00 AM to 2023-06-01 (All day)\nWhere: No location specified\nDescription: No description\nCreator: Unknown\nOrganizer: Unknown\nRecurring: No\n")
      (pyStr (dictGetD [("summary", PyVal.str "Standup"),
        ("start", PyVal.obj [("dateTime", PyVal.str "2023-06-01T10:00:00Z")]),
        ("end", PyVal.obj [("date", PyVal.str "2023-06-01")])] "summary"
        (.str "Untitled event"))) :=
  (C4_get_event_output_contains "ev1" none none
    { status := 200,
      jsonBody := some (.obj [("summary", PyVal.str "Standup"),
        ("start", PyVal.obj [("dateTime", PyVal.str "2023-06-01T10:00:00Z")]),
        ("end", PyVal.obj [("date", PyVal.str "2023-06-01")])]) }
    [("summary", PyVal.str "Standup"),
      ("start", PyVal.obj [("dateTime", PyVal.str "2023-06-01T10:00:00Z")]),
      ("end", PyVal.obj [("date", PyVal.str "2023-06-01")])]
    ("Event: Standup\nID: ev1\nWhen: 2023-06-01 10:00 AM to 2023-06-01 (All day)\nWhere: No location specified\nDescription: No description\nCreator: Unknown\nOrganizer: Unknown\nRecurring: No\n")
    rfl rfl).1

/-- C10: `get_today_events` is not total over arbitrary 2xx JSON responses.
With `days = 1`, the per-event loop body raises `IndexError` for any event
whose `start.dateTime` is a string containing `T` that does not parse
(after the code's `Z` normalization) and has fewer than two space
characters — `formatted_time.split(" ")[1]`/`[2]` goes out of bounds; and
for events whose `start.dateTime` does parse, the indexing stays in bounds
(the `"%Y-%m-%d %I:%M %p"` rendering always has exactly three
space-separated fields) and the loop body returns a line.  The `start`
object's `date` field, when present, is a string (its `.split` would
otherwise raise before the indexing). -/
theorem C10_today_events_indexing :
    (∀ (fs sf : List (String × PyVal)) (dt : String),
      dictGetD fs "start" (.obj []) = .obj sf →
      sf.find? (fun p => p.1 == "dateTime") = some ("dateTime", .str dt) →
      ((sf.find? (fun p => p.1 == "date") = none)
        ∨ (∃ ds, sf.find? (fun p => p.1 == "date") = some ("date", .str ds))) →
      containsTChar dt = true →
      isoParse (zNormalize dt) = none →
      dt.data.count ' ' < 2 →
      todayEventLine 1 (.obj fs) = .error .indexError)
    ∧ (∀ (fs sf : List (String × PyVal)) (dt : String) (pdt : PyDateTime),
      dictGetD fs "start" (.obj []) = .obj sf →
      sf.find? (fun p => p.1 == "dateTime") = some ("dateTime", .str dt) →
      ((sf.find? (fun p => p.1 == "date") = none)
        ∨ (∃ ds, sf.find? (fun p => p.1 == "date") = some ("date", .str ds))) →
      containsTChar dt = true →
      isoParse (zNormalize dt) = some pdt →
      ∃ line, todayEventLine 1 (.obj fs) = .ok line) := by
  constructor
  · intro fs sf dt hstart hdt hdate hT hparse hsp
    have hdtv : ∀ d, dictGetD sf "dateTime" d = .str dt := fun d => by
      simp [dictGetD, hdt]
    have hne1 : ¬(dt = "") := by
      rintro rfl; simp [containsTChar] at hT
    have hne2 : ¬(dt = "Unknown") := by
      rintro rfl; simp [containsTChar] at hT
    have hfd : format_datetime dt = zNormalize dt := by
      simp [format_datetime, hne1, hne2, hT, hparse]
    have hdd : ∃ ds, dictGetD sf "date" (.str dt) = .str ds := by
      rcases hdate with hdc | ⟨ds, hdc⟩
      · exact ⟨dt, by simp [dictGetD, hdc]⟩
      · exact ⟨ds, by simp [dictGetD, hdc]⟩
    obtain ⟨ds, hdd⟩ := hdd
    have hsplitT : 0 < (pySplit 'T' ds).length := by
      show 0 < ((splitCh 'T' ds.data).map String.mk).length
      rw [List.length_map, splitCh_length]
      omega
    obtain ⟨p0, hp0⟩ := pyIndex_ok_of_lt _ 0 hsplitT
    have hlen : (pySplit ' ' (format_datetime dt)).length = dt.data.count ' ' + 1 := by
      rw [hfd]
      show ((splitCh ' ' (zNormalize dt).data).map String.mk).length = _
      rw [List.length_map, splitCh_length, count_space_zNormalize]
    have hsp2 : dt.data.count ' ' = 0 ∨ dt.data.count ' ' = 1 := by omega
    rcases hsp2 with hc0 | hc1
    · have hidx1 : pyIndex (pySplit ' ' (format_datetime dt)) 1 = .error .indexError :=
        pyIndex_err_of_ge _ _ (by omega)
      simp [todayEventLine, asDict, hstart, hdtv, pyInT, hT, hdd, hp0,
        format_datetime_dyn, hidx1, Bind.bind, Except.bind, pure, Except.pure]
    · obtain ⟨x, hx⟩ := pyIndex_ok_of_lt (pySplit ' ' (format_datetime dt)) 1 (by omega)
      have hidx2 : pyIndex (pySplit ' ' (format_datetime dt)) 2 = .error .indexError :=
        pyIndex_err_of_ge _ _ (by omega)
      simp [todayEventLine, asDict, hstart, hdtv, pyInT, hT, hdd, hp0,
        format_datetime_dyn, hx, hidx2, Bind.bind, Except.bind, pure, Except.pure]
  · intro fs sf dt pdt hstart hdt hdate hT hparse
    have hdtv : ∀ d, dictGetD sf "dateTime" d = .str dt := fun d => by
      simp [dictGetD, hdt]
    have hne1 : ¬(dt = "") := by
      rintro rfl; simp [containsTChar] at hT
    have hne2 : ¬(dt = "Unknown") := by
      rintro rfl; simp [containsTChar] at hT
    have hfd : format_datetime dt = strftimeOut pdt := by
      simp [format_datetime, hne1, hne2, hT, hparse]
    have hdd : ∃ ds, dictGetD sf "date" (.str dt) = .str ds := by
      rcases hdate with hdc | ⟨ds, hdc⟩
      · exact ⟨dt, by simp [dictGetD, hdc]⟩
      · exact ⟨ds, by simp [dictGetD, hdc]⟩
    obtain ⟨ds, hdd⟩ := hdd
    have hsplitT : 0 < (pySplit 'T' ds).length := by
      show 0 < ((splitCh 'T' ds.data).map String.mk).length
      rw [List.length_map, splitCh_length]
      omega
    obtain ⟨p0, hp0⟩ := pyIndex_ok_of_lt _ 0 hsplitT
    have hlen : (pySplit ' ' (format_datetime dt)).length = 3 := by
      rw [hfd]
      show ((splitCh ' ' (strftimeOut pdt).data).map String.mk).length = 3
      rw [List.length_map, splitCh_length, count_space_strftimeOut]
    obtain ⟨x1, hx1⟩ := pyIndex_ok_of_lt (pySplit ' ' (format_datetime dt)) 1 (by omega)
    obtain ⟨x2, hx2⟩ := pyIndex_ok_of_lt (pySplit ' ' (format_datetime dt)) 2 (by omega)
    refine ⟨"- " ++ (x1 ++ " " ++ x2) ++ ": "
        ++ pyStr (dictGetD fs "summary" (.str "Untitled event")) ++ " (ID: "
        ++ pyStr (dictGetD fs "id" (.str "No ID")) ++ ")\n", ?_⟩
    simp [todayEventLine, asDict, hstart, hdtv, pyInT, hT, hdd, hp0,
      format_datetime_dyn, hx1, hx2, Bind.bind, Except.bind, pure, Except.pure]

/-- C10 witness: the event `{"start": {"dateTime": "badTtext"}}` under
`days = 1`: the loop body raises `IndexError`. -/
theorem C10_today_events_indexing_witness :
    todayEventLine 1 (.obj [("start", PyVal.obj [("dateTime", PyVal.str "badTtext")])])
      = .error .indexError :=
  C10_today_events_indexing.1
    [("start", PyVal.obj [("dateTime", PyVal.str "badTtext")])]
    [("dateTime", PyVal.str "badTtext")] "badTtext"
    rfl rfl (Or.inl rfl) (by decide) (by decide) (by decide)

end GCal
